import Mathlib

/-!
Verification of the anthill scene-parsing and carbon-aggregation core.

This file is a shallow embedding of the Python sources
`models/mesh.py`, `utils/json_loader.py` and `components/charts.py`
(numbers are modelled as rationals; JSON data as an inductive value type;
Python exceptions as an explicit error sum in `Except`).  The theorems at
the end settle the frozen claims about the specification.
-/

set_option maxRecDepth 4000

/-- A decoded JSON value.  `null` also stands for Python `None`
(`dict.get` returns `None` both for an absent key and for a stored null). -/
inductive JValue : Type where
  | null : JValue
  | bool : Bool → JValue
  | num : ℚ → JValue
  | str : String → JValue
  | arr : List JValue → JValue
  | obj : List (String × JValue) → JValue

/-- A Python dict with string keys (keys are assumed unique, as in a
decoded JSON object); insertion order is the list order. -/
abbrev Obj : Type := List (String × JValue)

mutual

/-- Structural equality of JSON values (Python `==` on decoded JSON). -/
def jeq : JValue → JValue → Bool
  | .null, .null => true
  | .bool a, .bool b => a == b
  | .num a, .num b => a == b
  | .str a, .str b => a == b
  | .arr a, .arr b => jeqList a b
  | .obj a, .obj b => jeqObj a b
  | _, _ => false

def jeqList : List JValue → List JValue → Bool
  | [], [] => true
  | x :: xs, y :: ys => jeq x y && jeqList xs ys
  | _, _ => false

def jeqObj : List (String × JValue) → List (String × JValue) → Bool
  | [], [] => true
  | (k1, v1) :: xs, (k2, v2) :: ys => k1 == k2 && jeq v1 v2 && jeqObj xs ys
  | _, _ => false

end

/-- Python truthiness of a JSON value (`bool(v)`). -/
def pyTruthy : JValue → Bool
  | .null => false
  | .bool b => b
  | .num q => q != 0
  | .str s => s != ""
  | .arr xs => !xs.isEmpty
  | .obj kvs => !kvs.isEmpty

/-- Python `a or b` on JSON values. -/
def pyOr (a b : JValue) : JValue := if pyTruthy a then a else b

mutual

/-- Python `str(v)` of a decoded JSON value.  Rendering of numbers and of
nested containers is abstracted (Lean's rational printer instead of
CPython's float `repr`); no analysed behaviour inspects these strings. -/
def pyStr : JValue → String
  | .null => "None"
  | .bool true => "True"
  | .bool false => "False"
  | .num q => toString q
  | .str s => s
  | .arr xs => "[" ++ pyStrList xs ++ "]"
  | .obj kvs => "\x7b" ++ pyStrObj kvs ++ "\x7d"

def pyStrList : List JValue → String
  | [] => ""
  | [x] => pyStr x
  | x :: xs => pyStr x ++ ", " ++ pyStrList xs

def pyStrObj : List (String × JValue) → String
  | [] => ""
  | [(k, v)] => k ++ ": " ++ pyStr v
  | (k, v) :: xs => k ++ ": " ++ pyStr v ++ ", " ++ pyStrObj xs

end

/-- First binding of a key in a dict (keys are unique in decoded JSON). -/
def dictLookup (o : Obj) (k : String) : Option JValue :=
  match o with
  | [] => none
  | (k2, v) :: rest => if k2 = k then some v else dictLookup rest k

/-- Python `o.get(k)`: the stored value, or `None` when absent. -/
def pyGet (o : Obj) (k : String) : JValue :=
  (dictLookup o k).getD .null

/-- Python `k in o` for a dict. -/
def hasKey (o : Obj) (k : String) : Bool :=
  o.any (fun kv => kv.1 == k)

/-- Python `d[k] = v` on a dict: overwrite in place, else append. -/
def dictSet (o : Obj) (k : String) (v : JValue) : Obj :=
  if o.any (fun kv => kv.1 == k) then
    o.map (fun kv => if kv.1 == k then (k, v) else kv)
  else o ++ [(k, v)]

/-- Python `target.update(source)` on dicts. -/
def dictUpdate (target src : Obj) : Obj :=
  src.foldl (fun acc kv => dictSet acc kv.1 kv.2) target

/-- Digits of a decimal string read as a natural number. -/
def natOfDigits (cs : List Char) : ℕ :=
  cs.foldl (fun n c => 10 * n + (c.toNat - 48)) 0

/-- Whitespace stripped from both ends (Python `str.strip()`). -/
def trimChars (cs : List Char) : List Char :=
  ((cs.dropWhile Char.isWhitespace).reverse.dropWhile Char.isWhitespace).reverse

/-- Split a character list at every occurrence of `sep`
(Python `str.split(sep)`: `""` splits to `[""]`). -/
def splitOnChar (sep : Char) : List Char → List (List Char)
  | [] => [[]]
  | c :: rest =>
      let r := splitOnChar sep rest
      if c = sep then [] :: r
      else
        match r with
        | h :: t => (c :: h) :: t
        | [] => [[c]]

/-- Python `float(s)` on the decimal subset of float literals:
optional sign, digits, optional point, surrounding whitespace.
(Exponent, `inf` and `nan` forms are not modelled; no analysed
input uses them.) -/
def parseFloatChars (cs : List Char) : Option ℚ :=
  let t := trimChars cs
  let signBody : ℚ × List Char :=
    match t with
    | '-' :: rest => (-1, rest)
    | '+' :: rest => (1, rest)
    | _ => (1, t)
  match splitOnChar '.' signBody.2 with
  | [ip] =>
      if ip ≠ [] ∧ ip.all Char.isDigit then
        some (signBody.1 * (natOfDigits ip : ℚ))
      else none
  | [ip, fp] =>
      if (ip ≠ [] ∨ fp ≠ []) ∧ ip.all Char.isDigit ∧ fp.all Char.isDigit then
        some (signBody.1 *
          ((natOfDigits ip : ℚ) + (natOfDigits fp : ℚ) / ((10 : ℚ) ^ fp.length)))
      else none
  | _ => none

/-- Python `float(s)` on a string. -/
def parseFloatString (s : String) : Option ℚ :=
  parseFloatChars s.toList

/-- ASCII lower-casing (Python `str.lower()` on the inputs analysed). -/
def lowerStr (s : String) : String :=
  String.mk (s.toList.map Char.toLower)

/-- Python `float(v)` on a JSON value, `none` where CPython raises
`TypeError`/`ValueError` (booleans coerce as integers). -/
def pyFloat? : JValue → Option ℚ
  | .num q => some q
  | .bool b => some (if b then 1 else 0)
  | .str s => parseFloatString s
  | _ => none

/-- Zero-padded positional index, Python `f"{idx:03d}"`. -/
def pad3 (n : ℕ) : String :=
  let s := toString n
  if s.length < 3 then String.mk (List.replicate (3 - s.length) '0') ++ s else s

/-- `needle in hay` on strings (Python substring test). -/
def substrOf (needle hay : String) : Bool :=
  (List.range (hay.toList.length + 1)).any
    (fun i => needle.toList.isPrefixOf (hay.toList.drop i))

/-- Whether any of the keywords occurs in the (already lowered) name. -/
def containsAny (name : String) (ks : List String) : Bool :=
  ks.any (fun k => substrOf k name)

/-- `s.startswith(p)` for strings. -/
def startsWithStr (s p : String) : Bool :=
  p.toList.isPrefixOf s.toList

/-- `s.endswith(p)` for strings. -/
def endsWithStr (s p : String) : Bool :=
  p.toList.reverse.isPrefixOf s.toList.reverse

/-- Stable insertion keeping `x` after every already-placed `y` with
`le y x`; folding it over a list is Python's stable `sorted`. -/
def insAfterLE (le : α → α → Bool) (x : α) : List α → List α
  | [] => [x]
  | y :: ys => if le y x then y :: insAfterLE le x ys else x :: y :: ys

/-- Stable sort by a boolean total preorder (Python `sorted`). -/
def stableSort (le : α → α → Bool) (l : List α) : List α :=
  l.foldl (fun acc x => insAfterLE le x acc) []

example : parseFloatString "10" = some 10 := by
  simp [parseFloatString, parseFloatChars, trimChars, splitOnChar, natOfDigits]
example : parseFloatString "8.5" = some (17/2) := by
  simp [parseFloatString, parseFloatChars, trimChars, splitOnChar, natOfDigits]
  norm_num
example : parseFloatString " -26 " = some (-26) := by
  simp [parseFloatString, parseFloatChars, trimChars, splitOnChar, natOfDigits]
example : parseFloatString "abc" = none := by
  simp [parseFloatString, parseFloatChars, trimChars, splitOnChar, natOfDigits]
example : substrOf "floor" "my_floor_3" = true := by decide
example : substrOf "post" "pillar" = false := by decide
example : pad3 7 = "007" := by rfl

/-! ## Domain models (`models/mesh.py`) -/

/-- Immutable 3D point (`Vertex` dataclass). -/
structure Vertex : Type where
  x : ℚ
  y : ℚ
  z : ℚ
deriving DecidableEq

def Vertex.to_tuple (v : Vertex) : ℚ × ℚ × ℚ := (v.x, v.y, v.z)

/-- A structural beam defined by start and end points (`BeamGeometry`;
also used for columns via the `ColumnGeometry` alias). -/
structure BeamGeometry : Type where
  name : String
  start_point : Vertex
  end_point : Vertex
  embodied_carbon : Option ℚ := none
  structural_type : String := "Beam"
  meta : List (String × String) := []
deriving DecidableEq

/-- Sum of squared coordinate differences, the argument of `math.sqrt`
inside `BeamGeometry.length`. -/
def BeamGeometry.lengthSq (b : BeamGeometry) : ℚ :=
  (b.end_point.x - b.start_point.x) * (b.end_point.x - b.start_point.x) +
  (b.end_point.y - b.start_point.y) * (b.end_point.y - b.start_point.y) +
  (b.end_point.z - b.start_point.z) * (b.end_point.z - b.start_point.z)

/-- Length of the beam.  Since `math.sqrt` has no rational counterpart,
the development is parameterised by the square-root function `sq`;
theorems constrain `sq` only at the perfect-square values they touch. -/
def BeamGeometry.length (sq : ℚ → ℚ) (b : BeamGeometry) : ℚ :=
  sq b.lengthSq

/-- Planar slab/floor geometry defined by corner vertices (`SlabGeometry`). -/
structure SlabGeometry : Type where
  name : String
  corners : List Vertex
  embodied_carbon : Option ℚ := none
  structural_type : String := "Floor"
  meta : List (String × String) := []
deriving DecidableEq

/-- Triangle area: half the norm of the cross product (`_triangle_area`),
with `sq` standing for `math.sqrt`. -/
def _triangle_area (sq : ℚ → ℚ) (a b c : Vertex) : ℚ :=
  let abx := b.x - a.x
  let aby := b.y - a.y
  let abz := b.z - a.z
  let acx := c.x - a.x
  let acy := c.y - a.y
  let acz := c.z - a.z
  let cross_x := aby * acz - abz * acy
  let cross_y := abz * acx - abx * acz
  let cross_z := abx * acy - aby * acx
  (1/2) * sq (cross_x ^ 2 + cross_y ^ 2 + cross_z ^ 2)

/-- Polygon area via fan triangulation from the first corner
(`SlabGeometry.area`). -/
def SlabGeometry.area (sq : ℚ → ℚ) (s : SlabGeometry) : ℚ :=
  if s.corners.length < 3 then 0
  else
    match s.corners with
    | [] => 0
    | p0 :: rest =>
        (rest.zip rest.tail).foldl
          (fun acc pq => acc + _triangle_area sq p0 pq.1 pq.2) 0

/-- Minimum of a nonempty collection, Python `min([x] + l)`. -/
def foldMin (x : ℚ) (l : List ℚ) : ℚ := l.foldl min x

/-- Maximum of a nonempty collection, Python `max([x] + l)`. -/
def foldMax (x : ℚ) (l : List ℚ) : ℚ := l.foldl max x

/-- Axis-aligned bounds of the slab corners (`SlabGeometry.bounds`). -/
def SlabGeometry.bounds (s : SlabGeometry) : (ℚ × ℚ × ℚ) × (ℚ × ℚ × ℚ) :=
  match s.corners with
  | [] => ((0, 0, 0), (0, 0, 0))
  | v :: vs =>
      ((foldMin v.x (vs.map Vertex.x), foldMin v.y (vs.map Vertex.y),
        foldMin v.z (vs.map Vertex.z)),
       (foldMax v.x (vs.map Vertex.x), foldMax v.y (vs.map Vertex.y),
        foldMax v.z (vs.map Vertex.z)))

/-- A single triangulated mesh geometry (`MeshGeometry`).  Face triples
are stored exactly as decoded from the payload (no bounds checking). -/
structure MeshGeometry : Type where
  name : String
  vertices : List Vertex
  faces : List (ℚ × ℚ × ℚ)
  meta : List (String × String) := []
  embodied_carbon : Option ℚ := none
  structural_type : Option String := none
deriving DecidableEq

def MeshGeometry.vertex_count (m : MeshGeometry) : ℕ := m.vertices.length

def MeshGeometry.face_count (m : MeshGeometry) : ℕ := m.faces.length

/-- Axis-aligned bounds of the mesh vertices (`MeshGeometry.bounds`). -/
def MeshGeometry.bounds (m : MeshGeometry) : (ℚ × ℚ × ℚ) × (ℚ × ℚ × ℚ) :=
  match m.vertices with
  | [] => ((0, 0, 0), (0, 0, 0))
  | v :: vs =>
      ((foldMin v.x (vs.map Vertex.x), foldMin v.y (vs.map Vertex.y),
        foldMin v.z (vs.map Vertex.z)),
       (foldMax v.x (vs.map Vertex.x), foldMax v.y (vs.map Vertex.y),
        foldMax v.z (vs.map Vertex.z)))

/-- Bounding box volume, clamped at zero (`MeshGeometry.bounding_box_volume`). -/
def MeshGeometry.bounding_box_volume (m : MeshGeometry) : ℚ :=
  let b := m.bounds
  max 0 ((b.2.1 - b.1.1) * (b.2.2.1 - b.1.2.1) * (b.2.2.2 - b.1.2.2))

/-- A value stored in scene-level metadata: either a raw JSON value or a
carbon number parsed from a string (see `_merge_metadata`). -/
inductive MetaVal : Type where
  | raw : JValue → MetaVal
  | carbon : Option ℚ → MetaVal

/-- Scene aggregate (`MeshScene`): four element collections plus metadata. -/
structure MeshScene : Type where
  meshes : List MeshGeometry := []
  beams : List BeamGeometry := []
  columns : List BeamGeometry := []
  slabs : List SlabGeometry := []
  metadata : List (String × MetaVal) := []

/-- Union axis-aligned bounding box over every point of every collection;
the degenerate zero box for an empty scene (`MeshScene.aggregate_bounds`). -/
def MeshScene.aggregate_bounds (s : MeshScene) :
    (ℚ × ℚ × ℚ) × (ℚ × ℚ × ℚ) :=
  let points : List (ℚ × ℚ × ℚ) :=
    s.meshes.foldl (fun acc m => acc ++ m.vertices.map Vertex.to_tuple) []
    ++ s.beams.foldl
        (fun acc b => acc ++ [b.start_point.to_tuple, b.end_point.to_tuple]) []
    ++ s.columns.foldl
        (fun acc c => acc ++ [c.start_point.to_tuple, c.end_point.to_tuple]) []
    ++ s.slabs.foldl (fun acc sl => acc ++ sl.corners.map Vertex.to_tuple) []
  match points with
  | [] => ((0, 0, 0), (0, 0, 0))
  | p :: ps =>
      ((foldMin p.1 (ps.map Prod.fst), foldMin p.2.1 (ps.map (fun q => q.2.1)),
        foldMin p.2.2 (ps.map (fun q => q.2.2))),
       (foldMax p.1 (ps.map Prod.fst), foldMax p.2.1 (ps.map (fun q => q.2.1)),
        foldMax p.2.2 (ps.map (fun q => q.2.2))))

/-- One flat summary row (`MeshScene.summary` dict).  `length` is present
exactly on beam/column rows and `area` exactly on slab rows, matching
which keys the Python dict carries. -/
structure Row : Type where
  name : String
  vertices : ℕ
  faces : ℕ
  bbox_volume : ℚ
  length : Option ℚ := none
  area : Option ℚ := none
  min_z : ℚ
  max_z : ℚ
  embodied_carbon : Option ℚ
  structural_type : Option String
deriving DecidableEq

/-- Summary row of a mesh geometry. -/
def meshRow (m : MeshGeometry) : Row :=
  let b := m.bounds
  { name := m.name
    vertices := m.vertex_count
    faces := m.face_count
    bbox_volume := m.bounding_box_volume
    min_z := b.1.2.2
    max_z := b.2.2.2
    embodied_carbon := m.embodied_carbon
    structural_type := m.structural_type }

/-- Summary row of a beam or column (the two loops in the source build
identical dicts). -/
def beamRow (sq : ℚ → ℚ) (b : BeamGeometry) : Row :=
  { name := b.name
    vertices := 2
    faces := 0
    bbox_volume := 0
    length := some (b.length sq)
    min_z := min b.start_point.z b.end_point.z
    max_z := max b.start_point.z b.end_point.z
    embodied_carbon := b.embodied_carbon
    structural_type := some b.structural_type }

/-- Summary row of a slab. -/
def slabRow (sq : ℚ → ℚ) (sl : SlabGeometry) : Row :=
  let b := sl.bounds
  { name := sl.name
    vertices := sl.corners.length
    faces := 2
    bbox_volume :=
      if b.1.2.2 < b.2.2.2 then
        (b.2.1 - b.1.1) * (b.2.2.1 - b.1.2.1) * (b.2.2.2 - b.1.2.2)
      else 0
    area := some (sl.area sq)
    min_z := b.1.2.2
    max_z := b.2.2.2
    embodied_carbon := sl.embodied_carbon
    structural_type := some sl.structural_type }

/-- Per-element summary rows, built by appending one row per element in
the order meshes, beams, columns, slabs (`MeshScene.summary`). -/
def MeshScene.summary (sq : ℚ → ℚ) (s : MeshScene) : List Row :=
  let rows : List Row := []
  let rows := s.meshes.foldl (fun acc m => acc ++ [meshRow m]) rows
  let rows := s.beams.foldl (fun acc b => acc ++ [beamRow sq b]) rows
  let rows := s.columns.foldl (fun acc c => acc ++ [beamRow sq c]) rows
  let rows := s.slabs.foldl (fun acc sl => acc ++ [slabRow sq sl]) rows
  rows

/-! ## Aggregation engine (`components/charts.py`)

The chart builders are modelled by their data cores: the grouping,
filtering and numeric computations that feed each figure.  A `none`
result stands for the empty `go.Figure()` returned on empty input.
String-formatted figure text is modelled by the underlying numbers. -/

/-- Rows admitted to carbon aggregations: `embodied_carbon` non-null. -/
def carbonRows (rows : List Row) : List Row :=
  rows.filter (fun r => r.embodied_carbon.isSome)

/-- The carbon of a filtered row.  On rows with non-null carbon this is
both the direct indexing `r["embodied_carbon"]` and the defensive
`r["embodied_carbon"] or 0.0` of the source (they agree there). -/
def carbonVal (r : Row) : ℚ := r.embodied_carbon.getD 0

/-- Python `sum` over rationals. -/
def sumQ (l : List ℚ) : ℚ := l.foldl (fun a b => a + b) 0

/-- Rational with denominator 1 (kernel-reducible `Nat` embedding). -/
def natQ (n : ℕ) : ℚ := ⟨Int.ofNat n, 1, Nat.one_ne_zero, Nat.coprime_one_right _⟩

/-- Rational with denominator 1 (kernel-reducible `Int` embedding). -/
def intQ (i : ℤ) : ℚ := ⟨i, 1, Nat.one_ne_zero, Nat.coprime_one_right _⟩

/-- Shared shape of the four default classifiers: a truthy
`structural_type` is returned verbatim, otherwise the lower-cased name
is classified by the given keyword fallback. -/
def stypeOrName (fallback : String → String) (r : Row) : String :=
  match r.structural_type with
  | some s => if s = "" then fallback (lowerStr r.name) else s
  | none => fallback (lowerStr r.name)

/-- Keyword fallback of `carbon_pie.default_classifier`
(`column`/`pillar` only — no `post`). -/
def pieNameClass (name : String) : String :=
  if containsAny name ["slab", "floor", "plate"] then "Floor"
  else if containsAny name ["beam", "girder"] then "Beam"
  else if containsAny name ["column", "pillar"] then "Column"
  else "Other"

/-- Keyword fallback of `carbon_aggregation_summary.default_classifier`
(`column`/`pillar`/`post`). -/
def aggNameClass (name : String) : String :=
  if containsAny name ["slab", "floor", "plate"] then "Floor"
  else if containsAny name ["beam", "girder"] then "Beam"
  else if containsAny name ["column", "pillar", "post"] then "Column"
  else "Other"

/-- Keyword fallback of `carbon_intensity_analysis.default_classifier`
(no floor branch). -/
def intensityNameClass (name : String) : String :=
  if containsAny name ["beam", "girder"] then "Beam"
  else if containsAny name ["column", "pillar"] then "Column"
  else "Other"

/-- Keyword fallback of `carbon_kpi_dashboard.default_classifier`
(beam branch first). -/
def kpiNameClass (name : String) : String :=
  if containsAny name ["beam", "girder"] then "Beam"
  else if containsAny name ["slab", "floor", "plate"] then "Floor"
  else if containsAny name ["column", "pillar"] then "Column"
  else "Other"

def pieClassifier : Row → String := stypeOrName pieNameClass

def aggClassifier : Row → String := stypeOrName aggNameClass

def intensityClassifier : Row → String := stypeOrName intensityNameClass

def kpiClassifier : Row → String := stypeOrName kpiNameClass

/-- Add a row's carbon to its (insertion-ordered) pie bucket. -/
def pieBucketAdd (acc : List (String × ℚ × ℕ)) (g : String) (c : ℚ) :
    List (String × ℚ × ℕ) :=
  if acc.any (fun e => e.1 == g) then
    acc.map (fun e => if e.1 == g then (e.1, e.2.1 + c, e.2.2 + 1) else e)
  else acc ++ [(g, c, 1)]

/-- The `grouped` dict of `carbon_pie`: label to (total carbon, count). -/
def pieGrouped (cls : Row → String) (rows : List Row) :
    List (String × ℚ × ℕ) :=
  rows.foldl (fun acc r => pieBucketAdd acc (cls r) (carbonVal r)) []

/-- Data core of `carbon_pie`: `none` on empty filtered rows, otherwise
the buckets ordered by descending total carbon (stable). -/
def carbon_pie (cls : Row → String) (summary : List Row) :
    Option (List (String × ℚ × ℕ)) :=
  let rows := carbonRows summary
  if rows.isEmpty then none
  else some (stableSort (fun a b => b.2.1 ≤ a.2.1) (pieGrouped cls rows))

/-- One group of `carbon_aggregation_summary` (the kept `elements` list
is a faithful carry-along; nothing downstream reads it). -/
structure AggBucket : Type where
  total_carbon : ℚ
  count : ℕ
  lengths : List ℚ
  elements : List Row
deriving DecidableEq

def aggBucketAdd (acc : List (String × AggBucket)) (g : String) (r : Row) :
    List (String × AggBucket) :=
  let push (b : AggBucket) : AggBucket :=
    { total_carbon := b.total_carbon + carbonVal r
      count := b.count + 1
      lengths := b.lengths ++ (match r.length with | some l => [l] | none => [])
      elements := b.elements ++ [r] }
  if acc.any (fun e => e.1 == g) then
    acc.map (fun e => if e.1 == g then (e.1, push e.2) else e)
  else acc ++ [(g, push { total_carbon := 0, count := 0, lengths := [], elements := [] })]

/-- Data core of `carbon_aggregation_summary`: the grouped buckets plus
the per-category average carbon series. -/
def carbon_aggregation_summary (cls : Row → String) (summary : List Row) :
    Option (List (String × AggBucket) × List ℚ) :=
  let rows := carbonRows summary
  if rows.isEmpty then none
  else
    let grouped := rows.foldl (fun acc r => aggBucketAdd acc (cls r) r) []
    some (grouped, grouped.map (fun e => e.2.total_carbon / natQ e.2.count))

/-- Truthiness of an optional float (`r.get(k)` used as a condition). -/
def optTruthy : Option ℚ → Bool
  | some q => q != 0
  | none => false

/-- Row filter of `carbon_intensity_analysis`: non-null carbon and a
truthy `length` or `area`. -/
def intensityFilter (r : Row) : Bool :=
  r.embodied_carbon.isSome && (optTruthy r.length || optTruthy r.area)

/-- One record of the `intensity_data` list. -/
structure IntensityEntry : Type where
  type : String
  display_type : String
  name : String
  carbon : ℚ
  dimension : ℚ
  dimension_type : String
  intensity : ℚ
  unit_suffix : String
deriving DecidableEq

/-- Per-row body of the `carbon_intensity_analysis` loop: choose length,
fall back to area when length is absent or zero, and emit an entry only
for a truthy positive divisor. -/
def intensityEntry (cls : Row → String) (r : Row) : Option IntensityEntry :=
  let group := cls r
  let dim : Option ℚ × String :=
    match r.length with
    | none => (r.area, "Area")
    | some l => if l = 0 then (r.area, "Area") else (some l, "Length")
  match dim.1 with
  | none => none
  | some d =>
      if d ≠ 0 ∧ 0 < d then
        some
          { type := group
            display_type :=
              group ++ " (" ++ (if dim.2 = "Length" then "m" else "m²") ++ ")"
            name := r.name
            carbon := carbonVal r
            dimension := d
            dimension_type := dim.2
            intensity := carbonVal r / d
            unit_suffix :=
              if dim.2 = "Length" then "kgCO2e per unit length"
              else "kgCO2e per unit area" }
      else none

/-- Data core of `carbon_intensity_analysis`. -/
def carbon_intensity_analysis (cls : Row → String) (summary : List Row) :
    Option (List IntensityEntry) :=
  let rows := summary.filter intensityFilter
  if rows.isEmpty then none
  else
    let data := rows.foldl (fun acc r => acc ++ (intensityEntry cls r).toList) []
    if data.isEmpty then none else some data

/-- Python `round` (banker's rounding, half to even). -/
def pyRound (q : ℚ) : ℤ :=
  let f := q.floor
  let r := q - intQ f
  if r < 1/2 then f
  else if 1/2 < r then f + 1
  else if f % 2 = 0 then f else f + 1

def floorBucketAdd (acc : List (ℤ × ℚ × ℕ)) (k : ℤ) (c : ℚ) :
    List (ℤ × ℚ × ℕ) :=
  if acc.any (fun e => e.1 == k) then
    acc.map (fun e => if e.1 == k then (e.1, e.2.1 + c, e.2.2 + 1) else e)
  else acc ++ [(k, c, 1)]

/-- Data core of `carbon_by_floor_level`: totals and counts per rounded
floor index `round(max_z / 8.67)`, reported in ascending floor order. -/
def carbon_by_floor_level (summary : List Row) :
    Option (List (ℤ × ℚ × ℕ)) :=
  let rows := carbonRows summary
  if rows.isEmpty then none
  else
    let fd := rows.foldl
      (fun acc r => floorBucketAdd acc (pyRound (r.max_z / (867/100))) (carbonVal r)) []
    some (stableSort (fun a b => decide (a.1 ≤ b.1)) fd)

/-- In-place append of `c` to the bucket of label `g` (the dict-entry
mutation `grouped_stats[group].append(...)`). -/
def kpiUpdate (g : String) (c : ℚ) (acc : List (String × List ℚ)) :
    List (String × List ℚ) :=
  acc.map (fun e => if e.1 == g then (e.1, e.2 ++ [c]) else e)

/-- Add a row's carbon to the `grouped_stats` value list of its label. -/
def kpiBucketAdd (acc : List (String × List ℚ)) (g : String) (c : ℚ) :
    List (String × List ℚ) :=
  if acc.any (fun e => e.1 == g) then kpiUpdate g c acc
  else acc ++ [(g, [c])]

/-- The `grouped_stats` dict of `carbon_kpi_dashboard`. -/
def kpiGroups (cls : Row → String) (rows : List Row) :
    List (String × List ℚ) :=
  rows.foldl (fun acc r => kpiBucketAdd acc (cls r) (carbonVal r)) []

/-- One row of the KPI stats table (numeric values behind the formatted
strings). -/
structure KpiGroup : Type where
  type : String
  count : ℕ
  total : ℚ
  average : ℚ
  pct_of_total : ℚ
deriving DecidableEq

/-- The KPI dashboard numbers. -/
structure KpiResult : Type where
  total_carbon : ℚ
  avg_carbon : ℚ
  max_carbon : ℚ
  min_carbon : ℚ
  groups : List KpiGroup
deriving DecidableEq

/-- Data core of `carbon_kpi_dashboard`. -/
def carbon_kpi_dashboard (cls : Row → String) (summary : List Row) :
    Option KpiResult :=
  match carbonRows summary with
  | [] => none
  | r0 :: rest =>
      let rows := r0 :: rest
      let total_carbon := sumQ (rows.map carbonVal)
      some
        { total_carbon := total_carbon
          avg_carbon := total_carbon / natQ rows.length
          max_carbon := foldMax (carbonVal r0) (rest.map carbonVal)
          min_carbon := foldMin (carbonVal r0) (rest.map carbonVal)
          groups :=
            (kpiGroups cls rows).map (fun e =>
              { type := e.1
                count := e.2.length
                total := sumQ e.2
                average := sumQ e.2 / natQ e.2.length
                pct_of_total := sumQ e.2 / total_carbon * 100 }) }

/-! ## Parser (`utils/json_loader.py`)

Fallible parsing runs in `Except PyErr`.  The `meshParse` constructor is
the distinguished `MeshParseError`; the other constructors model Python
exceptions (`ValueError`, `TypeError`, `AttributeError`) that the loader
does not convert into `MeshParseError`.  An `Except.error` result is
precisely "no (partial) scene is returned". -/

/-- Python exception classes relevant to the loader. -/
inductive PyErr : Type where
  | meshParse : String → PyErr
  | valueErr : String → PyErr
  | typeErr : String → PyErr
  | attrErr : String → PyErr
deriving DecidableEq

/-- Leading and trailing brace characters removed (`s.strip('{}')`). -/
def stripBraces (cs : List Char) : List Char :=
  ((cs.dropWhile (fun c => c == '{' || c == '}')).reverse.dropWhile
      (fun c => c == '{' || c == '}')).reverse

/-- Parse a point string like `"{-37, -26, 8.666667}"` into a `Vertex`
(`parse_point_string`).  A non-string argument raises `AttributeError`
at `.strip` (uncaught by the element-level handler); a non-numeric
component raises `ValueError` from `float`; a component count other
than 3 raises the distinguished parse error. -/
def parseFloatLoop : List (List Char) → Option (List ℚ)
  | [] => some []
  | p :: ps =>
      match parseFloatChars (trimChars p) with
      | none => none
      | some q =>
          match parseFloatLoop ps with
          | none => none
          | some qs => some (q :: qs)

def parse_point_string (v : JValue) : Except PyErr Vertex :=
  match v with
  | .str s =>
      let clean := stripBraces s.toList
      match parseFloatLoop (splitOnChar ',' clean) with
      | none => .error (.valueErr "could not convert string to float")
      | some coords =>
          match coords with
          | [a, b, c] => .ok ⟨a, b, c⟩
          | _ => .error (.meshParse ("Invalid point format: " ++ s))
  | _ => .error (.attrErr "no attribute strip")

/-- `_parse_carbon`: `None` stays absent, otherwise `float` coercion
with failures degrading to absent. -/
def _parse_carbon (v : JValue) : Option ℚ :=
  match v with
  | .null => none
  | x => pyFloat? x

/-- The carbon lookup chain used for beam, column and slab records:
`_parse_carbon(elem.get("CarbonEmission") or elem.get("CarbonEmmision"))`. -/
def carbonLookup (elem : Obj) : Option ℚ :=
  _parse_carbon (pyOr (pyGet elem "CarbonEmission") (pyGet elem "CarbonEmmision"))

def getObj : JValue → Option Obj
  | .obj kvs => some kvs
  | _ => none

/-- One item of the list branch of `_extract_system_payload`: an inner
list contributes its dict items as elements, a dict item is merged into
metadata, anything else is ignored. -/
def extractStep (acc : List Obj × Obj) (it : JValue) : List Obj × Obj :=
  match it with
  | .arr xs => (acc.1 ++ xs.filterMap getObj, acc.2)
  | .obj kvs => (acc.1, dictUpdate acc.2 kvs)
  | _ => acc

/-- `_extract_system_payload`: normalize a system payload into element
records plus metadata.  In a list payload, inner lists contribute their
dict items as elements and dict items are merged into metadata; a dict
payload contributes its `"elements"` list, the remaining keys being
metadata. -/
def _extract_system_payload (system_data : JValue) : List Obj × Obj :=
  match system_data with
  | .arr items => items.foldl extractStep ([], [])
  | .obj kvs =>
      let elems :=
        match dictLookup kvs "elements" with
        | some (.arr xs) => xs.filterMap getObj
        | _ => []
      (elems, dictUpdate [] (kvs.filter (fun kv => kv.1 ≠ "elements")))
  | _ => ([], [])

/-- Write one scene-metadata binding (Python dict assignment). -/
def metaSet (t : List (String × MetaVal)) (k : String) (v : MetaVal) :
    List (String × MetaVal) :=
  if t.any (fun kv => kv.1 == k) then
    t.map (fun kv => if kv.1 == k then (k, v) else kv)
  else t ++ [(k, v)]

/-- `_merge_metadata`: numbers (and booleans, a Python `int` subclass)
are stored raw, strings under a key ending in `co2` are parsed as
carbon, everything else is stored raw. -/
def _merge_metadata (target : List (String × MetaVal)) (source : Obj) :
    List (String × MetaVal) :=
  source.foldl
    (fun t kv =>
      match kv.2 with
      | .num q => metaSet t kv.1 (.raw (.num q))
      | .bool b => metaSet t kv.1 (.raw (.bool b))
      | .str s =>
          if endsWithStr (lowerStr kv.1) "co2" then
            metaSet t kv.1 (.carbon (_parse_carbon (.str s)))
          else metaSet t kv.1 (.raw (.str s))
      | v => metaSet t kv.1 (.raw v))
    target

/-- The element `meta` dict: remaining keys stringified. -/
def elemMetaStr (elem : Obj) (excluded : List String) :
    List (String × String) :=
  (elem.filter (fun kv => kv.1 ∉ excluded)).map (fun kv => (kv.1, pyStr kv.2))

/-- Body of the per-element `try` block of `_parse_linear_elements`. -/
def parseLinearBody (pre st sk ek : String) (idx : ℕ) (elem : Obj) :
    Except PyErr BeamGeometry :=
  match pyGet elem sk, pyGet elem ek with
  | .null, _ => .error (.meshParse ("Missing start/end point in element " ++ toString idx))
  | _, .null => .error (.meshParse ("Missing start/end point in element " ++ toString idx))
  | sraw, eraw =>
      match parse_point_string sraw with
      | .error e => .error e
      | .ok sp =>
          match parse_point_string eraw with
          | .error e => .error e
          | .ok ep =>
              .ok
                { name := pre ++ "_" ++ pad3 idx
                  start_point := sp
                  end_point := ep
                  embodied_carbon := carbonLookup elem
                  structural_type := st
                  meta := elemMetaStr elem [sk, ek, "CarbonEmission", "CarbonEmmision"] }

/-- One element of `_parse_linear_elements`, with the surrounding
`except (ValueError, TypeError)` handler re-raising as the
distinguished parse error.  `MeshParseError` and `AttributeError`
pass through unchanged, as in the source. -/
def parseLinearOne (pre st sk ek : String) (idx : ℕ) (elem : Obj) :
    Except PyErr BeamGeometry :=
  match parseLinearBody pre st sk ek idx elem with
  | .error (.valueErr m) =>
      .error (.meshParse ("Failed to parse " ++ lowerStr st ++ " " ++ toString idx ++ ": " ++ m))
  | .error (.typeErr m) =>
      .error (.meshParse ("Failed to parse " ++ lowerStr st ++ " " ++ toString idx ++ ": " ++ m))
  | r => r

/-- The indexed element loop of `_parse_linear_elements`. -/
def parseLinearGo (pre st sk ek : String) : ℕ → List Obj →
    Except PyErr (List BeamGeometry)
  | _, [] => .ok []
  | idx, elem :: rest =>
      match parseLinearOne pre st sk ek idx elem with
      | .error e => .error e
      | .ok b =>
          match parseLinearGo pre st sk ek (idx + 1) rest with
          | .error e => .error e
          | .ok bs => .ok (b :: bs)

/-- `_parse_linear_elements`. -/
def _parse_linear_elements (system_data : JValue) (pre st : String)
    (sk : String := "PointStart") (ek : String := "PointEnd") :
    Except PyErr (List BeamGeometry × Obj) :=
  let pm := _extract_system_payload system_data
  match parseLinearGo pre st sk ek 0 pm.1 with
  | .error e => .error e
  | .ok bs => .ok (bs, pm.2)

/-- Numeric value of the digit characters of a key
(`int(''.join(filter(str.isdigit, k)) or 0)`). -/
def digitsVal (k : String) : ℕ :=
  natOfDigits (k.toList.filter Char.isDigit)

/-- Corner keys of a slab record: keys with a case-insensitive `point`
prefix, sorted (stably) by embedded numeric suffix. -/
def slabCornerKeys (elem : Obj) : List String :=
  stableSort (fun a b => decide (digitsVal a ≤ digitsVal b))
    ((elem.filter (fun kv => startsWithStr (lowerStr kv.1) "point")).map
      (fun kv => kv.1))

/-- The corner decoding loop of one slab record. -/
def parseCorners (elem : Obj) : List String → Except PyErr (List Vertex)
  | [] => .ok []
  | k :: ks =>
      match parse_point_string (pyGet elem k) with
      | .error e => .error e
      | .ok v =>
          match parseCorners elem ks with
          | .error e => .error e
          | .ok vs => .ok (v :: vs)

/-- One element of `_parse_slab_system`; note there is no `try` here, so
point-string errors propagate with their original class. -/
def parseSlabOne (pre : String) (idx : ℕ) (elem : Obj) :
    Except PyErr SlabGeometry :=
  match slabCornerKeys elem with
  | [] => .error (.meshParse ("Slab " ++ toString idx ++ " missing corner points"))
  | ks =>
      match parseCorners elem ks with
      | .error e => .error e
      | .ok corners =>
          .ok
            { name := pre ++ "_" ++ pad3 idx
              corners := corners
              embodied_carbon := carbonLookup elem
              structural_type := "Floor"
              meta := elemMetaStr elem (ks ++ ["CarbonEmission", "CarbonEmmision"]) }

def parseSlabGo (pre : String) : ℕ → List Obj → Except PyErr (List SlabGeometry)
  | _, [] => .ok []
  | idx, elem :: rest =>
      match parseSlabOne pre idx elem with
      | .error e => .error e
      | .ok s =>
          match parseSlabGo pre (idx + 1) rest with
          | .error e => .error e
          | .ok ss => .ok (s :: ss)

/-- `_parse_slab_system`. -/
def _parse_slab_system (system_data : JValue) (pre : String := "Slab") :
    Except PyErr (List SlabGeometry × Obj) :=
  let pm := _extract_system_payload system_data
  match parseSlabGo pre 0 pm.1 with
  | .error e => .error e
  | .ok ss => .ok (ss, pm.2)

/-- The dict variant of `parse_structural_frame`. -/
def parseFrameDict (sf : Obj) : Except PyErr MeshScene :=
  match
    (if hasKey sf "BeamSystem" then
      _parse_linear_elements (pyGet sf "BeamSystem") "Beam" "Beam"
    else .ok ([], [])) with
  | .error e => .error e
  | .ok pb =>
      match
        (if hasKey sf "ColumnSystem" then
          _parse_linear_elements (pyGet sf "ColumnSystem") "Column" "Column"
        else .ok ([], [])) with
      | .error e => .error e
      | .ok pc =>
          match
            (if hasKey sf "SlabSystem" then
              _parse_slab_system (pyGet sf "SlabSystem") "Floor"
            else .ok ([], [])) with
          | .error e => .error e
          | .ok ps =>
              .ok
                { meshes := []
                  beams := pb.1
                  columns := pc.1
                  slabs := ps.1
                  metadata :=
                    _merge_metadata (_merge_metadata (_merge_metadata [] pb.2) pc.2) ps.2 }

/-- One entry of the list variant of `parse_structural_frame`
(non-dict entries are skipped). -/
def frameStep (acc : MeshScene) (entry : JValue) : Except PyErr MeshScene :=
  match entry with
  | .obj e =>
      match
        (if hasKey e "BeamSystem" then
          _parse_linear_elements (pyGet e "BeamSystem") "Beam" "Beam"
        else .ok ([], [])) with
      | .error err => .error err
      | .ok pb =>
          match
            (if hasKey e "ColumnSystem" then
              _parse_linear_elements (pyGet e "ColumnSystem") "Column" "Column"
            else .ok ([], [])) with
          | .error err => .error err
          | .ok pc =>
              match
                (if hasKey e "SlabSystem" then
                  _parse_slab_system (pyGet e "SlabSystem") "Floor"
                else .ok ([], [])) with
              | .error err => .error err
              | .ok ps =>
                  let md :=
                    _merge_metadata
                      (_merge_metadata (_merge_metadata acc.metadata pb.2) pc.2) ps.2
                  let md :=
                    if hasKey e "TotalCO2" then
                      metaSet md "totalCO2" (.carbon (_parse_carbon (pyGet e "TotalCO2")))
                    else md
                  .ok
                    { acc with
                      beams := acc.beams ++ pb.1
                      columns := acc.columns ++ pc.1
                      slabs := acc.slabs ++ ps.1
                      metadata := md }
  | _ => .ok acc

/-- The entry loop of the list variant of `parse_structural_frame`. -/
def frameLoop : MeshScene → List JValue → Except PyErr MeshScene
  | acc, [] => .ok acc
  | acc, entry :: rest =>
      match frameStep acc entry with
      | .error e => .error e
      | .ok acc2 => frameLoop acc2 rest

/-- `parse_structural_frame`: dispatch on the `StructuralFrame` value.
Iterating a string yields characters, which the list branch skips as
non-dicts, so a string payload produces the empty scene; a number is
not iterable (`TypeError`). -/
def parse_structural_frame (data : Obj) : Except PyErr MeshScene :=
  match pyGet data "StructuralFrame" with
  | .null => .ok {}
  | .obj kvs => parseFrameDict kvs
  | .arr entries => frameLoop {} entries
  | .str _ => .ok {}
  | _ => .error (.typeErr "StructuralFrame is not iterable")

/-- Whether a value may be a Python dict key. -/
def hashable : JValue → Bool
  | .arr _ => false
  | .obj _ => false
  | _ => true

/-- Assignment into the uuid-to-name dict (keys compared by value). -/
def mapSet (m : List (JValue × JValue)) (k v : JValue) :
    List (JValue × JValue) :=
  if m.any (fun kv => jeq kv.1 k) then
    m.map (fun kv => if jeq kv.1 k then (kv.1, v) else kv)
  else m ++ [(k, v)]

def mapLookup (m : List (JValue × JValue)) (k : JValue) : Option JValue :=
  match m with
  | [] => none
  | (k2, v) :: rest => if jeq k2 k then some v else mapLookup rest k

/-- The child loop building the geometry-uuid to display-name map from
`object.children` (`type == "Mesh"` children only). -/
def uuidLoop (m : List (JValue × JValue)) : List JValue →
    Except PyErr (List (JValue × JValue))
  | [] => .ok m
  | child :: rest =>
      match child with
      | .obj kvs =>
          if jeq (pyGet kvs "type") (.str "Mesh") then
            let g := pyGet kvs "geometry"
            if hashable g then
              uuidLoop
                (mapSet m g
                  (if hasKey kvs "name" then pyGet kvs "name" else .str "mesh"))
                rest
            else .error (.typeErr "unhashable type")
          else uuidLoop m rest
      | _ => .error (.attrErr "no attribute get")

def buildUuidMap (children : List JValue) :
    Except PyErr (List (JValue × JValue)) :=
  uuidLoop [] children

/-- A value used where the source expects a string name.  Python keeps
the raw object; analysed behaviour only ever reads string names, other
values are rendered with `pyStr`. -/
def asName : JValue → String
  | .str s => s
  | v => pyStr v

/-- A value stored into a numeric slot.  Python keeps the raw object;
analysed behaviour only feeds numbers (and booleans) here, other values
default to 0. -/
def asNum : JValue → ℚ
  | .num q => q
  | .bool b => if b then 1 else 0
  | _ => 0

/-- Python `v == 0` (true for `0`, `0.0` and `False`). -/
def pyEqZero : JValue → Bool
  | .num q => q == 0
  | .bool b => !b
  | _ => false

/-- Consecutive numeric triples decoded into vertices (the slicing loop
of `parse_scene`; an incomplete tail cannot occur under the preceding
length check). -/
def chunk3 : List JValue → List Vertex
  | a :: b :: c :: rest => ⟨asNum a, asNum b, asNum c⟩ :: chunk3 rest
  | _ => []

/-- Vertex decoding with the multiple-of-3 validation.  Strings support
`len` and indexing in Python, so they are treated as character
sequences; a non-empty dict raises on integer indexing after the
length check; other values do not support `len`. -/
def parseVerticesJ (name : String) (v : JValue) : Except PyErr (List Vertex) :=
  match v with
  | .arr xs =>
      if xs.length % 3 ≠ 0 then
        .error (.meshParse ("Vertex array length not multiple of 3 for " ++ name))
      else .ok (chunk3 xs)
  | .str s =>
      if s.toList.length % 3 ≠ 0 then
        .error (.meshParse ("Vertex array length not multiple of 3 for " ++ name))
      else .ok (chunk3 (s.toList.map (fun c => JValue.str (String.mk [c]))))
  | .obj kvs =>
      if kvs.length % 3 ≠ 0 then
        .error (.meshParse ("Vertex array length not multiple of 3 for " ++ name))
      else if kvs.isEmpty then .ok []
      else .error (.typeErr "KeyError")
  | _ => .error (.typeErr "object has no len")

/-- The face quadruple loop: flag must compare equal to 0, the three
indices are kept verbatim (the incomplete-tail case cannot occur under
the multiple-of-4 check). -/
def facesGo (name : String) : List JValue → Except PyErr (List (ℚ × ℚ × ℚ))
  | flag :: a :: b :: c :: rest =>
      if pyEqZero flag then
        (facesGo name rest).map (fun fs => (asNum a, asNum b, asNum c) :: fs)
      else .error (.meshParse ("Unsupported face flag " ++ pyStr flag ++ " in " ++ name))
  | _ => .ok []

/-- Face decoding: skipped entirely for a falsy `faces` value, otherwise
the multiple-of-4 validation followed by the quadruple loop. -/
def parseFacesJ (name : String) (v : JValue) : Except PyErr (List (ℚ × ℚ × ℚ)) :=
  if pyTruthy v then
    match v with
    | .arr xs =>
        if xs.length % 4 ≠ 0 then
          .error (.meshParse ("Faces array length not multiple of 4 for " ++ name))
        else facesGo name xs
    | .str s =>
        if s.toList.length % 4 ≠ 0 then
          .error (.meshParse ("Faces array length not multiple of 4 for " ++ name))
        else facesGo name (s.toList.map (fun c => JValue.str (String.mk [c])))
    | .obj kvs =>
        if kvs.length % 4 ≠ 0 then
          .error (.meshParse ("Faces array length not multiple of 4 for " ++ name))
        else .error (.typeErr "KeyError")
    | _ => .error (.typeErr "object has no len")
  else .ok []

/-- The display name of a geometry block:
`uuid_name_map.get(uuid, uuid or f"mesh_{len(meshes)}")`. -/
def geomName (umap : List (JValue × JValue)) (idx : ℕ) (uuid : JValue) : String :=
  match mapLookup umap uuid with
  | some v => asName v
  | none => if pyTruthy uuid then asName uuid else "mesh_" ++ toString idx

/-- One geometry block of `parse_scene`. -/
def parseGeometry (umap : List (JValue × JValue)) (idx : ℕ) (g : JValue) :
    Except PyErr MeshGeometry :=
  match g with
  | .obj kvs =>
      let uuid := pyGet kvs "uuid"
      if hashable uuid then
        let name := geomName umap idx uuid
        match pyOr (pyGet kvs "data") (.obj []) with
        | .obj dkvs =>
            let rawv := if hasKey dkvs "vertices" then pyGet dkvs "vertices" else .arr []
            let rawf := if hasKey dkvs "faces" then pyGet dkvs "faces" else .arr []
            match parseVerticesJ name rawv with
            | .error e => .error e
            | .ok vertices =>
                match parseFacesJ name rawf with
                | .error e => .error e
                | .ok faces =>
                    .ok
                      { name := name
                        vertices := vertices
                        faces := faces
                        meta :=
                          [("uuid", if pyTruthy uuid then pyStr uuid else ""),
                           ("vertex_count", toString vertices.length)]
                        embodied_carbon :=
                          match pyGet dkvs "embodiedCarbon" with
                          | .null => none
                          | c => pyFloat? c
                        structural_type :=
                          match pyGet dkvs "structural_type" with
                          | .null => none
                          | st => some (pyStr st) }
        | _ => .error (.attrErr "no attribute get")
      else .error (.typeErr "unhashable type")
  | _ => .error (.attrErr "no attribute get")

/-- The indexed geometry loop of `parse_scene` (the running index equals
`len(meshes)` because every success appends exactly one mesh). -/
def parseSceneGo (umap : List (JValue × JValue)) : ℕ → List JValue →
    Except PyErr (List MeshGeometry)
  | _, [] => .ok []
  | idx, g :: rest =>
      match parseGeometry umap idx g with
      | .error e => .error e
      | .ok m =>
          match parseSceneGo umap (idx + 1) rest with
          | .error e => .error e
          | .ok ms => .ok (m :: ms)

/-- Python iteration over a JSON value (`for x in v`): lists yield
items, strings characters, dicts keys; other values are not iterable. -/
def iterItems : JValue → Except PyErr (List JValue)
  | .arr xs => .ok xs
  | .str s => .ok (s.toList.map (fun c => JValue.str (String.mk [c])))
  | .obj kvs => .ok (kvs.map (fun kv => JValue.str kv.1))
  | _ => .error (.typeErr "not iterable")

/-- The `object.children` lookup of `parse_scene`. -/
def childrenItems (data : Obj) : Except PyErr (List JValue) :=
  match (if hasKey data "object" then pyGet data "object" else .obj []) with
  | .obj okvs =>
      iterItems (if hasKey okvs "children" then pyGet okvs "children" else .arr [])
  | _ => .error (.attrErr "no attribute get")

/-- `parse_scene`: build the uuid name map, then decode each geometry. -/
def parse_scene (data : Obj) : Except PyErr MeshScene :=
  match childrenItems data with
  | .error e => .error e
  | .ok children =>
      match buildUuidMap children with
      | .error e => .error e
      | .ok umap =>
          match
            iterItems (if hasKey data "geometries" then pyGet data "geometries" else .arr []) with
          | .error e => .error e
          | .ok gs =>
              match parseSceneGo umap 0 gs with
              | .error e => .error e
              | .ok meshes => .ok { meshes := meshes }

/-- `load_scene` after JSON decoding: a top-level `StructuralFrame` key
selects the structural-frame parser, anything else falls through to the
mesh-export parser.  A non-dict top level fails in either branch on
attribute access, never yielding a scene. -/
def load_scene (data : JValue) : Except PyErr MeshScene :=
  match data with
  | .obj kvs =>
      if hasKey kvs "StructuralFrame" then parse_structural_frame kvs
      else parse_scene kvs
  | .arr _ => .error (.attrErr "no attribute get")
  | .str _ => .error (.attrErr "no attribute get")
  | _ => .error (.typeErr "argument is not iterable")

/-! ## Helper lemmas -/

theorem foldl_append_map (f : α → β) (l : List α) (init : List β) :
    l.foldl (fun acc x => acc ++ [f x]) init = init ++ l.map f := by
  induction l generalizing init with
  | nil => simp
  | cons x xs ih => simp [ih]

/-- Closed form of `MeshScene.summary`: the four collections mapped to
rows and concatenated in order. -/
theorem summary_eq (sq : ℚ → ℚ) (s : MeshScene) :
    s.summary sq =
      s.meshes.map meshRow ++ s.beams.map (beamRow sq) ++
        s.columns.map (beamRow sq) ++ s.slabs.map (slabRow sq) := by
  unfold MeshScene.summary
  simp [foldl_append_map]

/-! ## Claims -/

/-- C1: for every scene, `summary()` returns exactly one row per element
across the four collections, concatenated in the fixed order surfaces
(meshes), beams, columns, slabs; no element is omitted (in particular
rows with null `embodied_carbon` or `structural_type` are emitted), and
the rows are a pure function of the scene state, rebuilt on each call. -/
theorem claim_C1 (sq : ℚ → ℚ) (s : MeshScene) :
    s.summary sq =
      s.meshes.map meshRow ++ s.beams.map (beamRow sq) ++
        s.columns.map (beamRow sq) ++ s.slabs.map (slabRow sq) ∧
    (s.summary sq).length =
      s.meshes.length + s.beams.length + s.columns.length + s.slabs.length := by
  refine ⟨summary_eq sq s, ?_⟩
  simp [summary_eq sq s, Nat.add_assoc]

/-- C9: a scene with no elements yields an empty summary, the degenerate
zero bounding box, and every aggregation operation (pie grouping,
grouped totals, intensity, floor binning, KPI) yields its empty result
(`none`, the empty figure) without failing. -/
theorem claim_C9 (md : List (String × MetaVal)) (sq : ℚ → ℚ)
    (cls : Row → String) :
    (MeshScene.mk [] [] [] [] md).summary sq = [] ∧
    (MeshScene.mk [] [] [] [] md).aggregate_bounds = ((0, 0, 0), (0, 0, 0)) ∧
    carbon_pie cls ((MeshScene.mk [] [] [] [] md).summary sq) = none ∧
    carbon_aggregation_summary cls ((MeshScene.mk [] [] [] [] md).summary sq) = none ∧
    carbon_intensity_analysis cls ((MeshScene.mk [] [] [] [] md).summary sq) = none ∧
    carbon_by_floor_level ((MeshScene.mk [] [] [] [] md).summary sq) = none ∧
    carbon_kpi_dashboard cls ((MeshScene.mk [] [] [] [] md).summary sq) = none :=
  ⟨rfl, rfl, rfl, rfl, rfl, rfl, rfl⟩

/-- A summary row whose name contains "post" but no recognised column
keyword, with no structural-type tag. -/
def postRow : Row :=
  { name := "post_7", vertices := 2, faces := 0, bbox_volume := 0,
    length := some 3, min_z := 0, max_z := 3, embodied_carbon := some 5,
    structural_type := none }

/-- A summary row with an explicit structural-type tag and a name that
would keyword-classify as "Floor". -/
def taggedFloorRow : Row :=
  { name := "floor_panel", vertices := 2, faces := 0, bbox_volume := 0,
    length := some 3, min_z := 0, max_z := 3, embodied_carbon := some 5,
    structural_type := some "Beam" }

/-- C4 fails on the code as stated: the claim's keyword table says names
containing "post" classify as "Column", but the `carbon_pie` default
classifier has no "post" keyword, so `postRow` classifies as "Other"
there (while the `carbon_aggregation_summary` classifier does return
"Column"). -/
theorem claim_C4_counterexample :
    pieClassifier postRow = "Other" ∧ aggClassifier postRow = "Column" ∧
      ("Other" : String) ≠ "Column" := by
  refine ⟨by decide, by decide, by decide⟩

/-- C4 (amended): both cited default classifiers apply rules in strict
priority order — a non-empty `structural_type` is returned verbatim;
otherwise the lower-cased name is matched against the keyword fallback:
"slab"/"floor"/"plate" yield "Floor", then "beam"/"girder" yield
"Beam"; for the column keywords the two classifiers differ — the
aggregation-summary classifier recognises "column"/"pillar"/"post"
while the pie classifier recognises only "column"/"pillar", so a name
matching only "post" yields "Other" in the pie classifier and "Column"
in the aggregation-summary classifier; otherwise "Other". -/
theorem claim_C4 (r : Row) :
    (∀ s, r.structural_type = some s → s ≠ "" →
        pieClassifier r = s ∧ aggClassifier r = s) ∧
    ((r.structural_type = none ∨ r.structural_type = some "") →
      (containsAny (lowerStr r.name) ["slab", "floor", "plate"] = true →
          pieClassifier r = "Floor" ∧ aggClassifier r = "Floor") ∧
      (containsAny (lowerStr r.name) ["slab", "floor", "plate"] = false →
        containsAny (lowerStr r.name) ["beam", "girder"] = true →
          pieClassifier r = "Beam" ∧ aggClassifier r = "Beam") ∧
      (containsAny (lowerStr r.name) ["slab", "floor", "plate"] = false →
        containsAny (lowerStr r.name) ["beam", "girder"] = false →
        containsAny (lowerStr r.name) ["column", "pillar"] = true →
          pieClassifier r = "Column" ∧ aggClassifier r = "Column") ∧
      (containsAny (lowerStr r.name) ["slab", "floor", "plate"] = false →
        containsAny (lowerStr r.name) ["beam", "girder"] = false →
        containsAny (lowerStr r.name) ["column", "pillar"] = false →
        substrOf "post" (lowerStr r.name) = true →
          pieClassifier r = "Other" ∧ aggClassifier r = "Column") ∧
      (containsAny (lowerStr r.name) ["slab", "floor", "plate"] = false →
        containsAny (lowerStr r.name) ["beam", "girder"] = false →
        containsAny (lowerStr r.name) ["column", "pillar", "post"] = false →
          pieClassifier r = "Other" ∧ aggClassifier r = "Other")) := by
  constructor
  · intro s hs hne
    simp [pieClassifier, aggClassifier, stypeOrName, hs, hne]
  · intro hst
    have hp : pieClassifier r = pieNameClass (lowerStr r.name) := by
      rcases hst with h | h <;> simp [pieClassifier, stypeOrName, h]
    have ha : aggClassifier r = aggNameClass (lowerStr r.name) := by
      rcases hst with h | h <;> simp [aggClassifier, stypeOrName, h]
    refine ⟨?_, ?_, ?_, ?_, ?_⟩
    · intro hfl
      simp [hp, ha, pieNameClass, aggNameClass, hfl]
    · intro hfl hbm
      simp [hp, ha, pieNameClass, aggNameClass, hfl, hbm]
    · intro hfl hbm hcp
      have hcp3 : containsAny (lowerStr r.name) ["column", "pillar", "post"] = true := by
        simp [containsAny] at hcp ⊢
        tauto
      simp [hp, ha, pieNameClass, aggNameClass, hfl, hbm, hcp, hcp3]
    · intro hfl hbm hcp hpost
      have hcp3 : containsAny (lowerStr r.name) ["column", "pillar", "post"] = true := by
        simp [containsAny] at hcp ⊢
        tauto
      simp [hp, ha, pieNameClass, aggNameClass, hfl, hbm, hcp, hcp3]
    · intro hfl hbm hcp3
      have hcp : containsAny (lowerStr r.name) ["column", "pillar"] = false := by
        simp [containsAny] at hcp3 ⊢
        tauto
      simp [hp, ha, pieNameClass, aggNameClass, hfl, hbm, hcp, hcp3]

/-- C4 witness: the spec's own example — explicit tag "Beam" beats the
"floor" keyword in both classifiers. -/
theorem claim_C4_witness :
    pieClassifier taggedFloorRow = "Beam" ∧
      aggClassifier taggedFloorRow = "Beam" :=
  (claim_C4 taggedFloorRow).1 "Beam" rfl (by decide)

/-- A beam element record placed directly in the system list. -/
def beamRecC6 : Obj :=
  [("PointStart", .str "\x7b0,0,0\x7d"), ("PointEnd", .str "\x7b1,0,0\x7d"),
   ("CarbonEmission", .str "5")]

/-- C6 fails on the code: an element record placed directly in the
system list is merged into system metadata by
`_extract_system_payload` and yields no parsed element, contradicting
the claim that such records are parsed as elements. -/
theorem claim_C6_counterexample :
    (_extract_system_payload (.arr [.obj beamRecC6])).1 = [] ∧
    (_extract_system_payload (.arr [.obj beamRecC6])).2 = beamRecC6 ∧
    _parse_linear_elements (.arr [.obj beamRecC6]) "Beam" "Beam" =
      .ok ([], beamRecC6) := by
  refine ⟨rfl, rfl, rfl⟩

theorem filterMap_getObj (ds : List Obj) :
    (ds.map JValue.obj).filterMap getObj = ds := by
  induction ds with
  | nil => rfl
  | cons d ds ih => simp [getObj, ih]

theorem filterMap_getObj_comp (ds : List Obj) :
    ds.filterMap (getObj ∘ JValue.obj) = ds := by
  induction ds with
  | nil => rfl
  | cons d ds ih => simp [getObj, ih]

theorem extract_lists (xss : List (List Obj)) (acc : List Obj) (m : Obj) :
    (xss.map (fun xs => JValue.arr (xs.map JValue.obj))).foldl extractStep (acc, m) =
      (acc ++ xss.flatten, m) := by
  induction xss generalizing acc with
  | nil => simp
  | cons x xss ih => simp [extractStep, filterMap_getObj_comp, ih]

/-- C6 (amended): the parser normalizes the two nested shapes — a list
whose items are lists of element records, and a dict wrapping an
`"elements"` list — into a flat record list; but an element record
placed directly in the system list is not parsed as an element: it is
merged into the system metadata instead. -/
theorem claim_C6 :
    (∀ xss : List (List Obj),
      (_extract_system_payload
          (.arr (xss.map (fun xs => JValue.arr (xs.map JValue.obj))))).1 =
        xss.flatten) ∧
    (∀ (ds : List Obj) (rest : Obj),
      (_extract_system_payload
          (.obj (("elements", .arr (ds.map JValue.obj)) :: rest))).1 = ds) ∧
    (∀ d : Obj,
      _extract_system_payload (.arr [.obj d]) = ([], dictUpdate [] d)) := by
  refine ⟨?_, ?_, ?_⟩
  · intro xss
    simp [_extract_system_payload, extract_lists]
  · intro ds rest
    simp [_extract_system_payload, dictLookup, filterMap_getObj_comp]
  · intro d
    simp [_extract_system_payload, extractStep]

theorem foldl_add_shift (x : ℚ) (l : List ℚ) :
    l.foldl (fun a b => a + b) x = x + l.foldl (fun a b => a + b) 0 := by
  induction l generalizing x with
  | nil => simp
  | cons a l ih =>
      simp only [List.foldl_cons]
      rw [ih (x + a), ih (0 + a)]
      ring

theorem sumQ_cons (a : ℚ) (l : List ℚ) : sumQ (a :: l) = a + sumQ l := by
  unfold sumQ
  simp only [List.foldl_cons]
  rw [foldl_add_shift]
  ring

theorem sumQ_append (l1 l2 : List ℚ) : sumQ (l1 ++ l2) = sumQ l1 + sumQ l2 := by
  induction l1 with
  | nil => simp [sumQ]
  | cons a l ih => simp only [List.cons_append, sumQ_cons, ih]; ring

/-- Sum of the per-group totals of the KPI `grouped_stats` buckets. -/
def bucketsTotal (l : List (String × List ℚ)) : ℚ :=
  sumQ (l.map (fun e => sumQ e.2))

theorem bucketsTotal_cons (e : String × List ℚ) (l : List (String × List ℚ)) :
    bucketsTotal (e :: l) = sumQ e.2 + bucketsTotal l := by
  simp [bucketsTotal, sumQ_cons]

theorem kpiUpdate_cons (g : String) (c : ℚ) (e : String × List ℚ)
    (acc : List (String × List ℚ)) :
    kpiUpdate g c (e :: acc) =
      (if e.1 == g then (e.1, e.2 ++ [c]) else e) :: kpiUpdate g c acc := rfl

theorem kpiUpdate_id (g : String) (c : ℚ) :
    ∀ acc : List (String × List ℚ), acc.any (fun e => e.1 == g) = false →
      kpiUpdate g c acc = acc := by
  intro acc
  induction acc with
  | nil => intro _; rfl
  | cons e acc ih =>
      intro h
      simp only [List.any_cons, Bool.or_eq_false_iff] at h
      rw [kpiUpdate_cons, if_neg (by simp [h.1]), ih h.2]

theorem kpiUpdate_map_fst (g : String) (c : ℚ) :
    ∀ acc : List (String × List ℚ),
      (kpiUpdate g c acc).map Prod.fst = acc.map Prod.fst := by
  intro acc
  induction acc with
  | nil => rfl
  | cons e acc ih =>
      rw [kpiUpdate_cons, List.map_cons, List.map_cons, ih]
      split <;> rfl

theorem bucketsTotal_update (g : String) (c : ℚ) :
    ∀ acc : List (String × List ℚ), (acc.map Prod.fst).Nodup →
      acc.any (fun e => e.1 == g) = true →
      bucketsTotal (kpiUpdate g c acc) = bucketsTotal acc + c := by
  intro acc
  induction acc with
  | nil => intro _ hany; simp at hany
  | cons e acc ih =>
      intro h hany
      rw [List.map_cons, List.nodup_cons] at h
      have h' := h
      cases hg : (e.1 == g) with
      | true =>
          have he : e.1 = g := by simpa using hg
          have htail : acc.any (fun x => x.1 == g) = false := by
            simp only [List.any_eq_false]
            intro x hx
            simp only [beq_iff_eq]
            intro hxg
            exact h'.1 (by
              rw [he]
              exact List.mem_map.mpr ⟨x, hx, hxg⟩)
          rw [kpiUpdate_cons, if_pos hg, kpiUpdate_id g c acc htail,
            bucketsTotal_cons, bucketsTotal_cons, sumQ_append]
          have : sumQ [c] = c := by simp [sumQ]
          rw [this]
          ring
      | false =>
          have htail : acc.any (fun x => x.1 == g) = true := by
            simpa [List.any_cons, hg] using hany
          rw [kpiUpdate_cons, if_neg (by simp [hg]), bucketsTotal_cons,
            bucketsTotal_cons, ih h'.2 htail]
          ring

theorem kpiBucketAdd_nodup (acc : List (String × List ℚ)) (g : String) (c : ℚ)
    (h : (acc.map Prod.fst).Nodup) :
    ((kpiBucketAdd acc g c).map Prod.fst).Nodup := by
  unfold kpiBucketAdd
  cases hany : acc.any (fun e => e.1 == g) with
  | true => rw [if_pos rfl, kpiUpdate_map_fst]; exact h
  | false =>
      rw [if_neg (by simp)]
      have hg : g ∉ acc.map Prod.fst := by
        simp only [List.any_eq_false] at hany
        simp only [List.mem_map]
        rintro ⟨e, he, rfl⟩
        simpa using hany e he
      simp [List.nodup_append, h, hg]

theorem bucketsTotal_add (acc : List (String × List ℚ)) (g : String) (c : ℚ)
    (h : (acc.map Prod.fst).Nodup) :
    bucketsTotal (kpiBucketAdd acc g c) = bucketsTotal acc + c := by
  unfold kpiBucketAdd
  cases hany : acc.any (fun e => e.1 == g) with
  | true => rw [if_pos rfl]; exact bucketsTotal_update g c acc h hany
  | false =>
      rw [if_neg (by simp)]
      simp [bucketsTotal, sumQ_append, sumQ_cons, sumQ]

theorem kpiFold_total (cls : Row → String) :
    ∀ (rows : List Row) (acc : List (String × List ℚ)),
      (acc.map Prod.fst).Nodup →
      bucketsTotal (rows.foldl (fun a r => kpiBucketAdd a (cls r) (carbonVal r)) acc) =
        bucketsTotal acc + sumQ (rows.map carbonVal) := by
  intro rows
  induction rows with
  | nil => intro acc h; simp [sumQ]
  | cons r rows ih =>
      intro acc h
      simp only [List.foldl_cons, List.map_cons, sumQ_cons]
      rw [ih _ (kpiBucketAdd_nodup acc (cls r) (carbonVal r) h),
        bucketsTotal_add acc (cls r) (carbonVal r) h]
      ring

/-- Grouping is a partition: the group totals of `grouped_stats` sum to
the grand total of the filtered rows, for any classifier. -/
theorem kpiGroups_total (cls : Row → String) (rows : List Row) :
    bucketsTotal (kpiGroups cls rows) = sumQ (rows.map carbonVal) := by
  have h := kpiFold_total cls rows [] (by simp)
  simpa [kpiGroups, bucketsTotal, sumQ] using h

/-- C3: every carbon aggregation first filters to rows with non-null
`embodied_carbon`; over that filtered set, for any classifier the group
totals of the KPI `grouped_stats` sum to the grand total (grouping is a
partition), and each reported group percentage is its total divided by
the filtered grand total times 100. -/
theorem claim_C3 (summary : List Row) (cls : Row → String) :
    (∀ r ∈ carbonRows summary, r.embodied_carbon ≠ none) ∧
    (∀ r ∈ summary, r.embodied_carbon = none → r ∉ carbonRows summary) ∧
    bucketsTotal (kpiGroups cls (carbonRows summary)) =
      sumQ ((carbonRows summary).map carbonVal) ∧
    (∀ kr, carbon_kpi_dashboard cls summary = some kr →
      kr.total_carbon = sumQ ((carbonRows summary).map carbonVal) ∧
      sumQ (kr.groups.map KpiGroup.total) = kr.total_carbon ∧
      ∀ g ∈ kr.groups, g.pct_of_total = g.total / kr.total_carbon * 100) := by
  refine ⟨?_, ?_, kpiGroups_total cls _, ?_⟩
  · intro r hr
    have h := (List.mem_filter.mp hr).2
    simpa [Option.isSome_iff_ne_none] using h
  · intro r _ hnone hmem
    have h := (List.mem_filter.mp hmem).2
    simp [hnone] at h
  · intro kr hkr
    unfold carbon_kpi_dashboard at hkr
    cases hcr : carbonRows summary with
    | nil => rw [hcr] at hkr; simp at hkr
    | cons r0 rest =>
        rw [hcr] at hkr
        simp only [Option.some.injEq] at hkr
        subst hkr
        refine ⟨rfl, ?_, ?_⟩
        · show sumQ (((kpiGroups cls (r0 :: rest)).map _).map KpiGroup.total) = _
          rw [List.map_map]
          have h2 : bucketsTotal (kpiGroups cls (r0 :: rest)) =
              sumQ ((r0 :: rest).map carbonVal) := kpiGroups_total cls _
          simpa [bucketsTotal, Function.comp] using h2
        · intro g hg
          simp only [List.mem_map] at hg
          obtain ⟨e, _, rfl⟩ := hg
          rfl

/-- Concrete rows exercising the C3 aggregation invariants. -/
def rowA : Row :=
  { name := "a", vertices := 0, faces := 0, bbox_volume := 0, min_z := 0,
    max_z := 0, embodied_carbon := some 2, structural_type := some "Beam" }

def rowB : Row :=
  { name := "b", vertices := 0, faces := 0, bbox_volume := 0, min_z := 0,
    max_z := 0, embodied_carbon := none, structural_type := some "Beam" }

def rowC : Row :=
  { name := "c", vertices := 0, faces := 0, bbox_volume := 0, min_z := 0,
    max_z := 0, embodied_carbon := some 3, structural_type := some "Floor" }

def summaryC3 : List Row := [rowA, rowB, rowC]

/-- C3 witness at a concrete summary and the KPI default classifier. -/
theorem claim_C3_witness :
    rowB ∉ carbonRows summaryC3 ∧
    bucketsTotal (kpiGroups kpiClassifier (carbonRows summaryC3)) =
      sumQ ((carbonRows summaryC3).map carbonVal) :=
  ⟨(claim_C3 summaryC3 kpiClassifier).2.1 rowB (by simp [summaryC3]) rfl,
   (claim_C3 summaryC3 kpiClassifier).2.2.1⟩

theorem parseLinearOne_ok (pre st sk ek : String) (idx : ℕ) (elem : Obj)
    (b : BeamGeometry) (h : parseLinearOne pre st sk ek idx elem = .ok b) :
    parseLinearBody pre st sk ek idx elem = .ok b := by
  unfold parseLinearOne at h
  split at h <;> simp_all

theorem parseLinearBody_carbon (pre st sk ek : String) (idx : ℕ) (elem : Obj)
    (b : BeamGeometry) (h : parseLinearBody pre st sk ek idx elem = .ok b) :
    b.embodied_carbon = carbonLookup elem := by
  unfold parseLinearBody at h
  split at h
  · simp at h
  · simp at h
  · split at h
    · simp at h
    · split at h
      · simp at h
      · simp only [Except.ok.injEq] at h
        subst h
        rfl

theorem parseSlabOne_carbon (pre : String) (idx : ℕ) (elem : Obj)
    (sl : SlabGeometry) (h : parseSlabOne pre idx elem = .ok sl) :
    sl.embodied_carbon = carbonLookup elem := by
  unfold parseSlabOne at h
  split at h
  · simp at h
  · split at h
    · simp at h
    · simp only [Except.ok.injEq] at h
      subst h
      rfl

theorem parseLinearGo_spec (pre st sk ek : String) :
    ∀ (elems : List Obj) (idx : ℕ) (out : List BeamGeometry),
      parseLinearGo pre st sk ek idx elems = .ok out →
      out.length = elems.length ∧
      ∀ i (hi : i < elems.length) (ho : i < out.length),
        parseLinearOne pre st sk ek (idx + i) (elems.get ⟨i, hi⟩) =
          .ok (out.get ⟨i, ho⟩) := by
  intro elems
  induction elems with
  | nil =>
      intro idx out h
      unfold parseLinearGo at h
      simp only [Except.ok.injEq] at h
      subst h
      simp
  | cons elem rest ih =>
      intro idx out h
      unfold parseLinearGo at h
      split at h
      · exact absurd h (by simp)
      · rename_i b hb
        split at h
        · exact absurd h (by simp)
        · rename_i bs hbs
          simp only [Except.ok.injEq] at h
          subst h
          obtain ⟨hlen, hspec⟩ := ih (idx + 1) bs hbs
          refine ⟨by simp [hlen], ?_⟩
          intro i hi ho
          cases i with
          | zero => simpa using hb
          | succ n =>
              have hn : n < rest.length := by simpa using hi
              have hno : n < bs.length := by simpa [hlen] using ho
              have hx := hspec n hn hno
              have harith : idx + 1 + n = idx + (n + 1) := by omega
              rw [harith] at hx
              simpa using hx

theorem parseSlabGo_spec (pre : String) :
    ∀ (elems : List Obj) (idx : ℕ) (out : List SlabGeometry),
      parseSlabGo pre idx elems = .ok out →
      out.length = elems.length ∧
      ∀ i (hi : i < elems.length) (ho : i < out.length),
        parseSlabOne pre (idx + i) (elems.get ⟨i, hi⟩) = .ok (out.get ⟨i, ho⟩) := by
  intro elems
  induction elems with
  | nil =>
      intro idx out h
      unfold parseSlabGo at h
      simp only [Except.ok.injEq] at h
      subst h
      simp
  | cons elem rest ih =>
      intro idx out h
      unfold parseSlabGo at h
      split at h
      · exact absurd h (by simp)
      · rename_i s hs
        split at h
        · exact absurd h (by simp)
        · rename_i ss hss
          simp only [Except.ok.injEq] at h
          subst h
          obtain ⟨hlen, hspec⟩ := ih (idx + 1) ss hss
          refine ⟨by simp [hlen], ?_⟩
          intro i hi ho
          cases i with
          | zero => simpa using hs
          | succ n =>
              have hn : n < rest.length := by simpa using hi
              have hno : n < ss.length := by simpa [hlen] using ho
              have hx := hspec n hn hno
              have harith : idx + 1 + n = idx + (n + 1) := by omega
              rw [harith] at hx
              simpa using hx

/-- C10: the carbon lookup chains the two key spellings with a truthy
`or`, so a record whose `CarbonEmission` value is falsy (0, "", false or
null) and whose typo-spelled key is absent parses to a null
`embodied_carbon` — in both the linear-element and the slab parser —
and such rows are excluded from every carbon aggregation rather than
contributing 0. -/
theorem claim_C10 :
    (∀ elem : Obj, pyGet elem "CarbonEmmision" = .null →
      pyTruthy (pyGet elem "CarbonEmission") = false →
      carbonLookup elem = none) ∧
    (∀ pre st sk ek idx elem b,
      parseLinearOne pre st sk ek idx elem = .ok b →
      b.embodied_carbon = carbonLookup elem) ∧
    (∀ pre idx elem sl, parseSlabOne pre idx elem = .ok sl →
      sl.embodied_carbon = carbonLookup elem) ∧
    (∀ (rows : List Row) (r : Row), r.embodied_carbon = none →
      r ∉ carbonRows rows) := by
  refine ⟨?_, ?_, ?_, ?_⟩
  · intro elem h1 h2
    unfold carbonLookup pyOr
    rw [h2, if_neg (by simp), h1]
    rfl
  · intro pre st sk ek idx elem b h
    exact parseLinearBody_carbon pre st sk ek idx elem b
      (parseLinearOne_ok pre st sk ek idx elem b h)
  · intro pre idx elem sl h
    exact parseSlabOne_carbon pre idx elem sl h
  · intro rows r hnone hmem
    have h := (List.mem_filter.mp hmem).2
    simp [hnone] at h

/-- A beam record with an explicit zero `CarbonEmission` and no
typo-spelled key. -/
def zeroCarbonRec : Obj :=
  [("PointStart", .str "\x7b0,0,0\x7d"), ("PointEnd", .str "\x7b1,0,0\x7d"),
   ("CarbonEmission", .num 0)]

/-- A summary row with null carbon. -/
def zeroCarbonRow : Row :=
  { name := "z", vertices := 2, faces := 0, bbox_volume := 0, min_z := 0,
    max_z := 0, embodied_carbon := none, structural_type := some "Beam" }

/-- C10 witness: explicit zero carbon is parsed as absent and the row is
excluded from the carbon aggregations. -/
theorem claim_C10_witness :
    carbonLookup zeroCarbonRec = none ∧
    zeroCarbonRow ∉ carbonRows [zeroCarbonRow] :=
  ⟨claim_C10.1 zeroCarbonRec rfl rfl,
   claim_C10.2.2.2 [zeroCarbonRow] zeroCarbonRow rfl⟩

/-- Evaluation of the point strings used in the concrete scenarios. -/
theorem pps_000 : parse_point_string (.str "\x7b0,0,0\x7d") = .ok ⟨0, 0, 0⟩ := by
  simp [parse_point_string, parseFloatLoop, stripBraces, splitOnChar,
    parseFloatChars, trimChars, natOfDigits]

theorem pps_100 : parse_point_string (.str "\x7b1,0,0\x7d") = .ok ⟨1, 0, 0⟩ := by
  simp [parse_point_string, parseFloatLoop, stripBraces, splitOnChar,
    parseFloatChars, trimChars, natOfDigits]

theorem pps_110 : parse_point_string (.str "\x7b1,1,0\x7d") = .ok ⟨1, 1, 0⟩ := by
  simp [parse_point_string, parseFloatLoop, stripBraces, splitOnChar,
    parseFloatChars, trimChars, natOfDigits]

theorem pps_010 : parse_point_string (.str "\x7b0,1,0\x7d") = .ok ⟨0, 1, 0⟩ := by
  simp [parse_point_string, parseFloatLoop, stripBraces, splitOnChar,
    parseFloatChars, trimChars, natOfDigits]

theorem pps_340 : parse_point_string (.str "\x7b3,4,0\x7d") = .ok ⟨3, 4, 0⟩ := by
  simp [parse_point_string, parseFloatLoop, stripBraces, splitOnChar,
    parseFloatChars, trimChars, natOfDigits]

/-- The spec's C2 scenario record: one 4-corner slab without
`CarbonEmission`. -/
def slabRecC2 : Obj :=
  [("Point1", .str "\x7b0,0,0\x7d"), ("Point2", .str "\x7b1,0,0\x7d"),
   ("Point3", .str "\x7b1,1,0\x7d"), ("Point4", .str "\x7b0,1,0\x7d")]

/-- A structural-frame payload with only a `SlabSystem` holding that
one record. -/
def slabPayloadC2 : Obj :=
  [("StructuralFrame", .obj [("SlabSystem", .arr [.arr [.obj slabRecC2]])])]

def slabC2 : SlabGeometry :=
  { name := "Floor_000"
    corners := [⟨0, 0, 0⟩, ⟨1, 0, 0⟩, ⟨1, 1, 0⟩, ⟨0, 1, 0⟩]
    embodied_carbon := none
    structural_type := "Floor"
    meta := [] }

def slabSceneC2 : MeshScene := { slabs := [slabC2] }

theorem slabCornerKeys_eval :
    slabCornerKeys slabRecC2 = ["Point1", "Point2", "Point3", "Point4"] := by
  decide

theorem parseSlabOne_eval : parseSlabOne "Floor" 0 slabRecC2 = .ok slabC2 := by
  unfold parseSlabOne
  rw [slabCornerKeys_eval]
  simp [parseCorners, pyGet, dictLookup, slabRecC2, pps_000, pps_100, pps_110,
    pps_010, slabC2, carbonLookup, _parse_carbon, pyOr, pyTruthy, elemMetaStr,
    pad3]
  decide

theorem parseSlabGo_eval : parseSlabGo "Floor" 0 [slabRecC2] = .ok [slabC2] := by
  unfold parseSlabGo
  rw [parseSlabOne_eval]
  rfl

theorem parse_slabSystemC2 :
    _parse_slab_system (.arr [.arr [.obj slabRecC2]]) "Floor" = .ok ([slabC2], []) := by
  calc _parse_slab_system (.arr [.arr [.obj slabRecC2]]) "Floor"
      = (match parseSlabGo "Floor" 0 [slabRecC2] with
         | .error e => .error e
         | .ok ss => .ok (ss, ([] : Obj))) := rfl
    _ = .ok ([slabC2], []) := by
        rw [parseSlabGo_eval]


theorem parse_slabPayloadC2 :
    parse_structural_frame slabPayloadC2 = .ok slabSceneC2 := by
  calc parse_structural_frame slabPayloadC2
      = (match _parse_slab_system (JValue.arr [.arr [.obj slabRecC2]]) "Floor" with
         | .error e => .error e
         | .ok ps =>
             .ok { meshes := [], beams := [], columns := [], slabs := ps.1,
                   metadata := _merge_metadata [] ps.2 }) := rfl
    _ = .ok slabSceneC2 := by
        rw [parse_slabSystemC2]
        rfl

/-- C2: a beam/column/slab record whose carbon field (under either
accepted spelling) is absent or fails to decode yields an element with
null `embodied_carbon`; the element is still parsed (one element per
record, so its row still appears in `summary()`), and null-carbon rows
are excluded from carbon aggregations; in particular the spec's
`SlabSystem` scenario yields exactly one slab row with null carbon,
present in `summary()` but excluded from the KPI dashboard. -/
theorem claim_C2 :
    (∀ (sd : JValue) (pre st sk ek : String) out meta,
      _parse_linear_elements sd pre st sk ek = .ok (out, meta) →
      out.length = (_extract_system_payload sd).1.length ∧
      ∀ i (hi : i < (_extract_system_payload sd).1.length) (ho : i < out.length),
        carbonLookup ((_extract_system_payload sd).1.get ⟨i, hi⟩) = none →
        (out.get ⟨i, ho⟩).embodied_carbon = none) ∧
    (∀ (sd : JValue) (pre : String) out meta,
      _parse_slab_system sd pre = .ok (out, meta) →
      out.length = (_extract_system_payload sd).1.length ∧
      ∀ i (hi : i < (_extract_system_payload sd).1.length) (ho : i < out.length),
        carbonLookup ((_extract_system_payload sd).1.get ⟨i, hi⟩) = none →
        (out.get ⟨i, ho⟩).embodied_carbon = none) ∧
    (∀ sq : ℚ → ℚ,
      parse_structural_frame slabPayloadC2 = .ok slabSceneC2 ∧
      (slabSceneC2.summary sq).length = 1 ∧
      (∀ r ∈ slabSceneC2.summary sq, r.embodied_carbon = none) ∧
      carbonRows (slabSceneC2.summary sq) = [] ∧
      carbon_kpi_dashboard kpiClassifier (slabSceneC2.summary sq) = none) := by
  refine ⟨?_, ?_, ?_⟩
  · intro sd pre st sk ek out meta h
    unfold _parse_linear_elements at h
    dsimp only [] at h
    split at h
    · exact absurd h (by simp)
    · rename_i bs hbs
      simp only [Except.ok.injEq, Prod.mk.injEq] at h
      obtain ⟨h1, _⟩ := h
      subst h1
      obtain ⟨hlen, hspec⟩ :=
        parseLinearGo_spec pre st sk ek (_extract_system_payload sd).1 0 bs hbs
      refine ⟨hlen, ?_⟩
      intro i hi ho hc
      have hone := hspec i hi ho
      have hbody := parseLinearOne_ok pre st sk ek (0 + i) _ _ hone
      rw [parseLinearBody_carbon pre st sk ek (0 + i) _ _ hbody, hc]
  · intro sd pre out meta h
    unfold _parse_slab_system at h
    dsimp only [] at h
    split at h
    · exact absurd h (by simp)
    · rename_i ss hss
      simp only [Except.ok.injEq, Prod.mk.injEq] at h
      obtain ⟨h1, _⟩ := h
      subst h1
      obtain ⟨hlen, hspec⟩ := parseSlabGo_spec pre (_extract_system_payload sd).1 0 ss hss
      refine ⟨hlen, ?_⟩
      intro i hi ho hc
      have hone := hspec i hi ho
      rw [parseSlabOne_carbon pre (0 + i) _ _ hone, hc]
  · intro sq
    have hsum : slabSceneC2.summary sq = [slabRow sq slabC2] := by
      rw [summary_eq]
      rfl
    have hcr : carbonRows (slabSceneC2.summary sq) = [] := by
      rw [hsum]
      rfl
    refine ⟨parse_slabPayloadC2, by simp [hsum], ?_, hcr, ?_⟩
    · intro r hr
      rw [hsum] at hr
      simp only [List.mem_singleton] at hr
      subst hr
      rfl
    · unfold carbon_kpi_dashboard
      rw [hcr]

/-- The beam record of the C2 witness: points but no carbon data that
decodes (`CarbonEmission` is the falsy 0, the typo key absent). -/
def beamZC : BeamGeometry :=
  { name := "Beam_000", start_point := ⟨0, 0, 0⟩, end_point := ⟨1, 0, 0⟩,
    embodied_carbon := none, structural_type := "Beam", meta := [] }

theorem parseLinearOne_zeroCarbon :
    parseLinearOne "Beam" "Beam" "PointStart" "PointEnd" 0 zeroCarbonRec =
      .ok beamZC := by
  unfold parseLinearOne parseLinearBody
  simp [pyGet, dictLookup, zeroCarbonRec, pps_000, pps_100, carbonLookup,
    _parse_carbon, pyOr, pyTruthy, pyFloat?, elemMetaStr, pad3, beamZC]
  decide

theorem parse_zeroCarbonRec :
    _parse_linear_elements (.arr [.arr [.obj zeroCarbonRec]]) "Beam" "Beam" =
      .ok ([beamZC], []) := by
  calc _parse_linear_elements (.arr [.arr [.obj zeroCarbonRec]]) "Beam" "Beam"
      = (match parseLinearGo "Beam" "Beam" "PointStart" "PointEnd" 0 [zeroCarbonRec] with
         | .error e => .error e
         | .ok bs => .ok (bs, ([] : Obj))) := rfl
    _ = .ok ([beamZC], []) := by
        unfold parseLinearGo
        rw [parseLinearOne_zeroCarbon]
        rfl

/-- C2 witness: the parsed zero-carbon beam record has null carbon, and
the concrete slab scenario's summary has no carbon rows. -/
theorem claim_C2_witness :
    beamZC.embodied_carbon = none ∧
    carbonRows (slabSceneC2.summary (fun q => q)) = [] :=
  ⟨(claim_C2.1 (.arr [.arr [.obj zeroCarbonRec]]) "Beam" "Beam" "PointStart"
      "PointEnd" [beamZC] [] parse_zeroCarbonRec).2 0 (by decide) (by decide) rfl,
   (claim_C2.2.2 (fun q => q)).2.2.2.1⟩

theorem mem_intensityFold (cls : Row → String) :
    ∀ (rows : List Row) (init : List IntensityEntry) (e : IntensityEntry),
      e ∈ rows.foldl (fun acc r => acc ++ (intensityEntry cls r).toList) init →
      e ∈ init ∨ ∃ r ∈ rows, intensityEntry cls r = some e := by
  intro rows
  induction rows with
  | nil => intro init e h; exact Or.inl h
  | cons r rows ih =>
      intro init e h
      simp only [List.foldl_cons] at h
      rcases ih _ e h with h2 | ⟨r2, hr2, he2⟩
      · rcases List.mem_append.mp h2 with h3 | h3
        · exact Or.inl h3
        · right
          refine ⟨r, List.mem_cons_self r rows, ?_⟩
          cases ho : intensityEntry cls r with
          | none => rw [ho] at h3; simp [Option.toList] at h3
          | some e2 =>
              rw [ho] at h3
              simp only [Option.toList, List.mem_singleton] at h3
              rw [h3]
      · exact Or.inr ⟨r2, List.mem_cons_of_mem r hr2, he2⟩

theorem intensityEntry_pos (cls : Row → String) (r : Row) (e : IntensityEntry)
    (h : intensityEntry cls r = some e) :
    0 < e.dimension ∧ e.carbon = carbonVal r ∧
      e.intensity = e.carbon / e.dimension := by
  unfold intensityEntry at h
  dsimp only [] at h
  split at h
  · simp at h
  · rename_i d hd
    split at h
    · rename_i hcond
      simp only [Option.some.injEq] at h
      subst h
      exact ⟨hcond.2, rfl, rfl⟩
    · simp at h

/-- The beam record of the spec's intensity scenario. -/
def beamRec7 : Obj :=
  [("PointStart", .str "\x7b0,0,0\x7d"), ("PointEnd", .str "\x7b3,4,0\x7d"),
   ("CarbonEmission", .str "10")]

def beam7 : BeamGeometry :=
  { name := "Beam_000", start_point := ⟨0, 0, 0⟩, end_point := ⟨3, 4, 0⟩,
    embodied_carbon := some 10, structural_type := "Beam", meta := [] }

/-- The intensity record derived from that beam: length 5, intensity 2. -/
def entry7 : IntensityEntry :=
  { type := "Beam", display_type := "Beam (m)", name := "Beam_000",
    carbon := 10, dimension := 5, dimension_type := "Length", intensity := 2,
    unit_suffix := "kgCO2e per unit length" }

theorem parseLinearOne_beam7 :
    parseLinearOne "Beam" "Beam" "PointStart" "PointEnd" 0 beamRec7 =
      .ok beam7 := by
  unfold parseLinearOne parseLinearBody
  simp [pyGet, dictLookup, beamRec7, pps_000, pps_340, carbonLookup,
    _parse_carbon, pyOr, pyTruthy, pyFloat?, parseFloatString, parseFloatChars,
    trimChars, splitOnChar, natOfDigits, elemMetaStr, pad3, beam7]
  decide

theorem parse_beam7 :
    _parse_linear_elements (.arr [.arr [.obj beamRec7]]) "Beam" "Beam" =
      .ok ([beam7], []) := by
  calc _parse_linear_elements (.arr [.arr [.obj beamRec7]]) "Beam" "Beam"
      = (match parseLinearGo "Beam" "Beam" "PointStart" "PointEnd" 0 [beamRec7] with
         | .error e => .error e
         | .ok bs => .ok (bs, ([] : Obj))) := rfl
    _ = .ok ([beam7], []) := by
        unfold parseLinearGo
        rw [parseLinearOne_beam7]
        rfl

theorem beam7_lengthSq : beam7.lengthSq = 25 := by
  simp [BeamGeometry.lengthSq, beam7]
  norm_num

theorem beamRow7 (sq : ℚ → ℚ) :
    beamRow sq beam7 =
      { name := "Beam_000", vertices := 2, faces := 0, bbox_volume := 0,
        length := some (sq 25), area := none, min_z := 0, max_z := 0,
        embodied_carbon := some 10, structural_type := some "Beam" } := by
  unfold beamRow BeamGeometry.length
  rw [beam7_lengthSq]
  norm_num [beam7]

/-- C7: intensity analysis divides carbon by length, falling back to
area when length is absent or zero; rows without a usable positive
divisor are excluded rather than dividing; every emitted entry has a
positive divisor and `intensity * dimension = carbon` (no division by
zero or by a missing divisor); and the spec's beam scenario derives
length 5 and intensity 2. -/
theorem claim_C7 :
    (∀ (cls : Row → String) (rows : List Row) (es : List IntensityEntry),
      carbon_intensity_analysis cls rows = some es →
      ∀ e ∈ es, 0 < e.dimension ∧ e.intensity = e.carbon / e.dimension ∧
        e.intensity * e.dimension = e.carbon) ∧
    (∀ (cls : Row → String) (r : Row),
      (∀ l, r.length = some l → 0 < l →
        ∃ e, intensityEntry cls r = some e ∧ e.dimension = l ∧
          e.dimension_type = "Length" ∧ e.intensity = carbonVal r / l) ∧
      ((r.length = none ∨ r.length = some 0) →
        ∀ a, r.area = some a → 0 < a →
        ∃ e, intensityEntry cls r = some e ∧ e.dimension = a ∧
          e.dimension_type = "Area" ∧ e.intensity = carbonVal r / a) ∧
      ((∀ l, r.length = some l → l ≤ 0) → (∀ a, r.area = some a → a ≤ 0) →
        intensityEntry cls r = none)) ∧
    (∀ sq : ℚ → ℚ, sq 25 = 5 →
      _parse_linear_elements (.arr [.arr [.obj beamRec7]]) "Beam" "Beam" =
        .ok ([beam7], []) ∧
      (beamRow sq beam7).length = some 5 ∧
      carbon_intensity_analysis intensityClassifier
        ((MeshScene.mk [] [beam7] [] [] []).summary sq) = some [entry7] ∧
      entry7.intensity = 2) := by
  refine ⟨?_, ?_, ?_⟩
  · intro cls rows es h e he
    unfold carbon_intensity_analysis at h
    dsimp only [] at h
    split at h
    · simp at h
    · split at h
      · simp at h
      · simp only [Option.some.injEq] at h
        subst h
        rcases mem_intensityFold cls _ [] e he with h2 | ⟨r, _, hr⟩
        · simp at h2
        · obtain ⟨hpos, hcar, hint⟩ := intensityEntry_pos cls r e hr
          refine ⟨hpos, hint, ?_⟩
          rw [hint, hcar]
          exact div_mul_cancel₀ (carbonVal r) (ne_of_gt hpos)
  · intro cls r
    refine ⟨?_, ?_, ?_⟩
    · intro l hl hpos
      have he : intensityEntry cls r =
          some { type := cls r, display_type := cls r ++ " (" ++ "m" ++ ")",
                 name := r.name, carbon := carbonVal r, dimension := l,
                 dimension_type := "Length", intensity := carbonVal r / l,
                 unit_suffix := "kgCO2e per unit length" } := by
        simp [intensityEntry, hl, hpos, hpos.ne']
      exact ⟨_, he, rfl, rfl, rfl⟩
    · intro hl a ha hpos
      have he : intensityEntry cls r =
          some { type := cls r, display_type := cls r ++ " (" ++ "m²" ++ ")",
                 name := r.name, carbon := carbonVal r, dimension := a,
                 dimension_type := "Area", intensity := carbonVal r / a,
                 unit_suffix := "kgCO2e per unit area" } := by
        rcases hl with h | h <;> simp [intensityEntry, h, ha, hpos, hpos.ne']
      exact ⟨_, he, rfl, rfl, rfl⟩
    · intro hlen harea
      cases hl : r.length with
      | none =>
          cases ha : r.area with
          | none => simp [intensityEntry, hl, ha]
          | some a =>
              have hna : ¬ (0 : ℚ) < a := not_lt.mpr (harea a ha)
              simp [intensityEntry, hl, ha, hna]
      | some l =>
          by_cases hz : l = 0
          · subst hz
            cases ha : r.area with
            | none => simp [intensityEntry, hl, ha]
            | some a =>
                have hna : ¬ (0 : ℚ) < a := not_lt.mpr (harea a ha)
                simp [intensityEntry, hl, ha, hna]
          · have hnl : ¬ (0 : ℚ) < l := not_lt.mpr (hlen l hl)
            simp [intensityEntry, hl, hz, hnl]
  · intro sq hsq
    have hrow : beamRow sq beam7 =
        { name := "Beam_000", vertices := 2, faces := 0, bbox_volume := 0,
          length := some 5, area := none, min_z := 0, max_z := 0,
          embodied_carbon := some 10, structural_type := some "Beam" } := by
      rw [beamRow7, hsq]
    have hsum : (MeshScene.mk [] [beam7] [] [] []).summary sq =
        [beamRow sq beam7] := by
      rw [summary_eq]
      rfl
    refine ⟨parse_beam7, by rw [beamRow7, hsq], ?_, rfl⟩
    rw [hsum, hrow]
    unfold carbon_intensity_analysis
    dsimp only []
    rw [show List.filter intensityFilter
        [({ name := "Beam_000", vertices := 2, faces := 0, bbox_volume := 0,
            length := some 5, area := none, min_z := 0, max_z := 0,
            embodied_carbon := some 10, structural_type := some "Beam" } : Row)] =
        [{ name := "Beam_000", vertices := 2, faces := 0, bbox_volume := 0,
           length := some 5, area := none, min_z := 0, max_z := 0,
           embodied_carbon := some 10, structural_type := some "Beam" }] from by
      simp [intensityFilter, optTruthy]]
    simp only [List.isEmpty_cons, Bool.false_eq_true, if_false, List.foldl_cons,
      List.foldl_nil, List.nil_append]
    rw [show intensityEntry intensityClassifier
        { name := "Beam_000", vertices := 2, faces := 0, bbox_volume := 0,
          length := some 5, area := none, min_z := 0, max_z := 0,
          embodied_carbon := some 10, structural_type := some "Beam" } =
        some entry7 from by
      unfold intensityEntry
      simp [intensityClassifier, stypeOrName, carbonVal, entry7]
      norm_num]
    rfl

/-- C7 witness at the square root pinned on the scenario's value. -/
theorem claim_C7_witness :
    carbon_intensity_analysis intensityClassifier
      ((MeshScene.mk [] [beam7] [] [] []).summary (fun _ => 5)) = some [entry7] ∧
    entry7.intensity = 2 :=
  ⟨(claim_C7.2.2 (fun _ => 5) rfl).2.2.1, (claim_C7.2.2 (fun _ => 5) rfl).2.2.2⟩

/-- A mesh-export payload with one vertex and a face whose indices (5,
6, 7) are out of range for that vertex list. -/
def payloadC8 : Obj :=
  [("geometries", .arr [.obj [("data", .obj
     [("vertices", .arr [.num 0, .num 0, .num 0]),
      ("faces", .arr [.num 0, .num 5, .num 6, .num 7])])]])]

def meshC8 : MeshGeometry :=
  { name := "mesh_0", vertices := [⟨0, 0, 0⟩], faces := [(5, 6, 7)],
    meta := [("uuid", ""), ("vertex_count", "1")],
    embodied_carbon := none, structural_type := none }

/-- C8 fails on the code: `parse_scene` performs no bounds check on face
indices, so a payload whose face triple (5, 6, 7) indexes a 1-vertex
surface parses successfully instead of raising the distinguished parse
error, and the parsed surface violates the `[0, len(vertices))`
invariant. -/
theorem claim_C8_counterexample :
    parse_scene payloadC8 = .ok { meshes := [meshC8] } ∧
    meshC8.faces = [(5, 6, 7)] ∧ meshC8.vertices.length = 1 ∧
    ¬ ((5 : ℚ) < 1) := by
  refine ⟨rfl, rfl, rfl, by norm_num⟩

/-- The same payload with an arbitrary face index `k`. -/
def payloadC8k (k : ℚ) : Obj :=
  [("geometries", .arr [.obj [("data", .obj
     [("vertices", .arr [.num 0, .num 0, .num 0]),
      ("faces", .arr [.num 0, .num k, .num k, .num k])])]])]

def meshC8k (k : ℚ) : MeshGeometry :=
  { name := "mesh_0", vertices := [⟨0, 0, 0⟩], faces := [(k, k, k)],
    meta := [("uuid", ""), ("vertex_count", "1")],
    embodied_carbon := none, structural_type := none }

/-- C8 (amended): the mesh-export parser validates vertex/face array
lengths and face flags but performs no bounds check on face indices:
for every index value `k` the payload parses successfully and the face
triple is stored verbatim, so the in-range invariant is not established
at parse time but left to consumers. -/
theorem facesGo_C8k (nm : String) (k : ℚ) :
    facesGo nm [.num 0, .num k, .num k, .num k] = .ok [(k, k, k)] := rfl

theorem claim_C8 (k : ℚ) :
    parse_scene (payloadC8k k) = .ok { meshes := [meshC8k k] } := by
  simp [parse_scene, payloadC8k, childrenItems, hasKey, pyGet, dictLookup,
    iterItems, buildUuidMap, uuidLoop, parseSceneGo, parseGeometry, hashable,
    geomName, mapLookup, pyTruthy, pyOr, parseVerticesJ, chunk3, asNum,
    parseFacesJ, facesGo_C8k, pyEqZero, meshC8k, pad3,
    show ("mesh_" ++ toString (0 : ℕ) : String) = "mesh_0" from rfl,
    show (toString (1 : ℕ) : String) = "1" from rfl]

/-- Some completed face quadruple carries a flag that does not compare
equal to 0 (the condition `parse_scene` rejects). -/
def flagBad : List JValue → Bool
  | flag :: _ :: _ :: _ :: rest => !pyEqZero flag || flagBad rest
  | _ => false

/-- A well-shaped `object.children` entry: a dict whose `geometry`
value is hashable whenever its `type` is `"Mesh"`. -/
def childShaped : JValue → Bool
  | .obj kvs =>
      !(jeq (pyGet kvs "type") (.str "Mesh")) || hashable (pyGet kvs "geometry")
  | _ => false

/-- A well-shaped geometry block of a mesh-export payload: a dict with
a hashable `uuid`, a dict (or falsy) `data`, and array-or-absent
`vertices` and `faces` — the §6 shape-A payload structure. -/
def geomShaped : JValue → Bool
  | .obj kvs =>
      hashable (pyGet kvs "uuid") &&
      (match pyOr (pyGet kvs "data") (.obj []) with
       | .obj dkvs =>
           (match (if hasKey dkvs "vertices" then pyGet dkvs "vertices" else .arr []) with
            | .arr _ => true
            | _ => false) &&
           (match (if hasKey dkvs "faces" then pyGet dkvs "faces" else .arr []) with
            | .arr _ => true
            | _ => false)
       | _ => false)
  | _ => false

/-- The vertex array a shaped geometry block supplies. -/
def geomVertices (g : JValue) : List JValue :=
  match g with
  | .obj kvs =>
      (match pyOr (pyGet kvs "data") (.obj []) with
       | .obj dkvs =>
           (match (if hasKey dkvs "vertices" then pyGet dkvs "vertices" else .arr []) with
            | .arr xs => xs
            | _ => [])
       | _ => [])
  | _ => []

/-- The face array a shaped geometry block supplies. -/
def geomFaces (g : JValue) : List JValue :=
  match g with
  | .obj kvs =>
      (match pyOr (pyGet kvs "data") (.obj []) with
       | .obj dkvs =>
           (match (if hasKey dkvs "faces" then pyGet dkvs "faces" else .arr []) with
            | .arr xs => xs
            | _ => [])
       | _ => [])
  | _ => []

/-- A geometry block violating one of the three validated conditions:
vertex length not a multiple of 3, face length not a multiple of 4, or
a non-zero face flag. -/
def geomMalformed (g : JValue) : Bool :=
  (geomVertices g).length % 3 != 0 || (geomFaces g).length % 4 != 0 ||
    flagBad (geomFaces g)

/-- The geometry list of a shaped mesh-export payload. -/
def geometriesOf (data : Obj) : List JValue :=
  match (if hasKey data "geometries" then pyGet data "geometries" else .arr []) with
  | .arr gs => gs
  | _ => []

/-- A well-shaped mesh-export payload (§6 shape A): `geometries` an
array of shaped blocks, `object.children` an array of shaped children
(each piece may also be absent). -/
def sceneShaped (data : Obj) : Bool :=
  (match (if hasKey data "geometries" then pyGet data "geometries" else .arr []) with
   | .arr gs => gs.all geomShaped
   | _ => false) &&
  (match (if hasKey data "object" then pyGet data "object" else .obj []) with
   | .obj okvs =>
       (match (if hasKey okvs "children" then pyGet okvs "children" else .arr []) with
        | .arr cs => cs.all childShaped
        | _ => false)
   | _ => false)

theorem uuidLoop_ok :
    ∀ (cs : List JValue) (m : List (JValue × JValue)),
      cs.all childShaped = true → ∃ m2, uuidLoop m cs = .ok m2 := by
  intro cs
  induction cs with
  | nil => intro m _; exact ⟨m, rfl⟩
  | cons c cs ih =>
      intro m hall
      simp only [List.all_cons, Bool.and_eq_true] at hall
      cases c with
      | obj kvs =>
          have h := hall.1
          simp only [childShaped] at h
          cases hj : jeq (pyGet kvs "type") (.str "Mesh") with
          | true =>
              rw [hj] at h
              simp only [Bool.not_true, Bool.false_or] at h
              simp only [uuidLoop, hj, h, if_true]
              exact ih _ hall.2
          | false =>
              simp only [uuidLoop, hj, Bool.false_eq_true, if_false]
              exact ih _ hall.2
      | null => exact absurd hall.1 (by simp [childShaped])
      | bool b => exact absurd hall.1 (by simp [childShaped])
      | num q => exact absurd hall.1 (by simp [childShaped])
      | str s => exact absurd hall.1 (by simp [childShaped])
      | arr xs => exact absurd hall.1 (by simp [childShaped])

theorem facesGo_ok (nm : String) :
    ∀ l, flagBad l = false → ∃ fs, facesGo nm l = .ok fs := by
  intro l
  induction l using flagBad.induct with
  | case1 flag a b c rest ih =>
      intro h
      unfold flagBad at h
      simp only [Bool.or_eq_false_iff, Bool.not_eq_false] at h
      obtain ⟨fs, hfs⟩ := ih h.2
      have h1 : pyEqZero flag = true := by simpa using h.1
      refine ⟨(asNum a, asNum b, asNum c) :: fs, ?_⟩
      unfold facesGo
      rw [if_pos h1, hfs]
      rfl
  | case2 l h1 =>
      intro _
      cases l with
      | nil => exact ⟨[], rfl⟩
      | cons x xs =>
          cases xs with
          | nil => exact ⟨[], rfl⟩
          | cons y ys =>
              cases ys with
              | nil => exact ⟨[], rfl⟩
              | cons z zs =>
                  cases zs with
                  | nil => exact ⟨[], rfl⟩
                  | cons w ws => exact absurd rfl (h1 x y z w ws)

theorem facesGo_err (nm : String) :
    ∀ l, flagBad l = true →
      ∃ msg, facesGo nm l = .error (.meshParse msg) := by
  intro l
  induction l using flagBad.induct with
  | case1 flag a b c rest ih =>
      intro h
      unfold flagBad at h
      cases hz : pyEqZero flag with
      | false =>
          refine ⟨"Unsupported face flag " ++ pyStr flag ++ " in " ++ nm, ?_⟩
          unfold facesGo
          rw [if_neg (by simp [hz])]
      | true =>
          rw [hz] at h
          simp only [Bool.not_true, Bool.false_or] at h
          obtain ⟨msg, hm⟩ := ih h
          refine ⟨msg, ?_⟩
          unfold facesGo
          rw [if_pos hz, hm]
          rfl
  | case2 l h1 =>
      intro h
      cases l with
      | nil => simp [flagBad] at h
      | cons x xs =>
          cases xs with
          | nil => simp [flagBad] at h
          | cons y ys =>
              cases ys with
              | nil => simp [flagBad] at h
              | cons z zs =>
                  cases zs with
                  | nil => simp [flagBad] at h
                  | cons w ws => exact absurd rfl (h1 x y z w ws)

theorem parseVerticesJ_ok (nm : String) (xs : List JValue)
    (h : xs.length % 3 = 0) :
    parseVerticesJ nm (.arr xs) = .ok (chunk3 xs) := by
  simp [parseVerticesJ, h]

theorem parseFacesJ_ok (nm : String) (xs : List JValue)
    (h4 : xs.length % 4 = 0) (hf : flagBad xs = false) :
    ∃ fs, parseFacesJ nm (.arr xs) = .ok fs := by
  obtain ⟨fs, hfs⟩ := facesGo_ok nm xs hf
  cases xs with
  | nil => exact ⟨[], by simp [parseFacesJ, pyTruthy]⟩
  | cons x xs =>
      have h4n : (xs.length + 1) % 4 = 0 := by simpa using h4
      exact ⟨fs, by simp [parseFacesJ, pyTruthy, h4n, hfs]⟩

theorem parseFacesJ_err (nm : String) (xs : List JValue)
    (h : xs.length % 4 ≠ 0 ∨ flagBad xs = true) :
    ∃ msg, parseFacesJ nm (.arr xs) = .error (.meshParse msg) := by
  cases xs with
  | nil =>
      cases h with
      | inl h => exact absurd rfl h
      | inr h => exact absurd h (by simp [flagBad])
  | cons x xs =>
      by_cases h4 : (x :: xs).length % 4 = 0
      · have hf : flagBad (x :: xs) = true := by
          cases h with
          | inl hl => exact absurd h4 hl
          | inr hr => exact hr
        obtain ⟨msg, hm⟩ := facesGo_err nm (x :: xs) hf
        have h4n : (xs.length + 1) % 4 = 0 := by simpa using h4
        exact ⟨msg, by simp [parseFacesJ, pyTruthy, h4n, hm]⟩
      · have h4n : ¬ (xs.length + 1) % 4 = 0 := by simpa using h4
        exact ⟨"Faces array length not multiple of 4 for " ++ nm,
          by simp [parseFacesJ, pyTruthy, h4n]⟩

theorem parseGeometry_ok (umap : List (JValue × JValue)) (idx : ℕ) (g : JValue)
    (h1 : geomShaped g = true) (h2 : geomMalformed g = false) :
    ∃ m, parseGeometry umap idx g = .ok m := by
  cases g with
  | obj kvs =>
      simp only [geomShaped] at h1
      rw [Bool.and_eq_true] at h1
      obtain ⟨hu, hd⟩ := h1
      cases hdv : pyOr (pyGet kvs "data") (.obj []) with
      | obj dkvs =>
          rw [hdv] at hd
          have hd2 :
              ((match (if hasKey dkvs "vertices" then pyGet dkvs "vertices" else .arr []) with
                | .arr _ => true
                | _ => false) &&
               (match (if hasKey dkvs "faces" then pyGet dkvs "faces" else .arr []) with
                | .arr _ => true
                | _ => false)) = true := hd
          rw [Bool.and_eq_true] at hd2
          cases hv : (if hasKey dkvs "vertices" then pyGet dkvs "vertices" else .arr []) with
          | arr vs =>
              cases hf : (if hasKey dkvs "faces" then pyGet dkvs "faces" else .arr []) with
              | arr fs =>
                  have hgv : geomVertices (.obj kvs) = vs := by
                    simp [geomVertices, hdv, hv]
                  have hgf : geomFaces (.obj kvs) = fs := by
                    simp [geomFaces, hdv, hf]
                  unfold geomMalformed at h2
                  rw [hgv, hgf] at h2
                  simp only [Bool.or_eq_false_iff, bne_eq_false_iff_eq] at h2
                  obtain ⟨⟨h3, h4⟩, hfb⟩ := h2
                  obtain ⟨faces, hfaces⟩ :=
                    parseFacesJ_ok (geomName umap idx (pyGet kvs "uuid")) fs h4 hfb
                  cases hres : parseGeometry umap idx (.obj kvs) with
                  | ok m => exact ⟨m, rfl⟩
                  | error e =>
                      simp only [parseGeometry, hu, hdv, hv, hf, if_true] at hres
                      rw [parseVerticesJ_ok _ vs h3, hfaces] at hres
                      simp at hres
              | null => exact Bool.noConfusion ((hf ▸ hd2.2 : _))
              | bool b => exact Bool.noConfusion ((hf ▸ hd2.2 : _))
              | num q => exact Bool.noConfusion ((hf ▸ hd2.2 : _))
              | str s => exact Bool.noConfusion ((hf ▸ hd2.2 : _))
              | obj o => exact Bool.noConfusion ((hf ▸ hd2.2 : _))
          | null => exact Bool.noConfusion ((hv ▸ hd2.1 : _))
          | bool b => exact Bool.noConfusion ((hv ▸ hd2.1 : _))
          | num q => exact Bool.noConfusion ((hv ▸ hd2.1 : _))
          | str s => exact Bool.noConfusion ((hv ▸ hd2.1 : _))
          | obj o => exact Bool.noConfusion ((hv ▸ hd2.1 : _))
      | null => exact Bool.noConfusion (hdv ▸ hd)
      | bool b => exact Bool.noConfusion (hdv ▸ hd)
      | num q => exact Bool.noConfusion (hdv ▸ hd)
      | str s => exact Bool.noConfusion (hdv ▸ hd)
      | arr xs => exact Bool.noConfusion (hdv ▸ hd)
  | null => exact Bool.noConfusion h1
  | bool b => exact Bool.noConfusion h1
  | num q => exact Bool.noConfusion h1
  | str s => exact Bool.noConfusion h1
  | arr xs => exact Bool.noConfusion h1

theorem parseGeometry_err (umap : List (JValue × JValue)) (idx : ℕ) (g : JValue)
    (h1 : geomShaped g = true) (h2 : geomMalformed g = true) :
    ∃ msg, parseGeometry umap idx g = .error (.meshParse msg) := by
  cases g with
  | obj kvs =>
      simp only [geomShaped] at h1
      rw [Bool.and_eq_true] at h1
      obtain ⟨hu, hd⟩ := h1
      cases hdv : pyOr (pyGet kvs "data") (.obj []) with
      | obj dkvs =>
          rw [hdv] at hd
          have hd2 :
              ((match (if hasKey dkvs "vertices" then pyGet dkvs "vertices" else .arr []) with
                | .arr _ => true
                | _ => false) &&
               (match (if hasKey dkvs "faces" then pyGet dkvs "faces" else .arr []) with
                | .arr _ => true
                | _ => false)) = true := hd
          rw [Bool.and_eq_true] at hd2
          cases hv : (if hasKey dkvs "vertices" then pyGet dkvs "vertices" else .arr []) with
          | arr vs =>
              cases hf : (if hasKey dkvs "faces" then pyGet dkvs "faces" else .arr []) with
              | arr fs =>
                  have hgv : geomVertices (.obj kvs) = vs := by
                    simp [geomVertices, hdv, hv]
                  have hgf : geomFaces (.obj kvs) = fs := by
                    simp [geomFaces, hdv, hf]
                  unfold geomMalformed at h2
                  rw [hgv, hgf] at h2
                  by_cases h3 : vs.length % 3 = 0
                  · have hb : (vs.length % 3 != 0) = false := by simp [h3]
                    rw [hb, Bool.false_or, Bool.or_eq_true] at h2
                    have hOr : fs.length % 4 ≠ 0 ∨ flagBad fs = true := by
                      cases h2 with
                      | inl hc => exact Or.inl (by simpa using hc)
                      | inr hc => exact Or.inr hc
                    obtain ⟨msg, hm⟩ :=
                      parseFacesJ_err (geomName umap idx (pyGet kvs "uuid")) fs hOr
                    refine ⟨msg, ?_⟩
                    simp only [parseGeometry, hu, hdv, hv, hf, if_true]
                    rw [parseVerticesJ_ok _ vs h3, hm]
                  · refine ⟨"Vertex array length not multiple of 3 for " ++
                      geomName umap idx (pyGet kvs "uuid"), ?_⟩
                    simp only [parseGeometry, hu, hdv, hv, if_true]
                    have hverr : parseVerticesJ (geomName umap idx (pyGet kvs "uuid"))
                        (.arr vs) = .error (.meshParse
                          ("Vertex array length not multiple of 3 for " ++
                            geomName umap idx (pyGet kvs "uuid"))) := by
                      simp [parseVerticesJ, h3]
                    rw [hverr]
              | null => exact Bool.noConfusion ((hf ▸ hd2.2 : _))
              | bool b => exact Bool.noConfusion ((hf ▸ hd2.2 : _))
              | num q => exact Bool.noConfusion ((hf ▸ hd2.2 : _))
              | str s => exact Bool.noConfusion ((hf ▸ hd2.2 : _))
              | obj o => exact Bool.noConfusion ((hf ▸ hd2.2 : _))
          | null => exact Bool.noConfusion ((hv ▸ hd2.1 : _))
          | bool b => exact Bool.noConfusion ((hv ▸ hd2.1 : _))
          | num q => exact Bool.noConfusion ((hv ▸ hd2.1 : _))
          | str s => exact Bool.noConfusion ((hv ▸ hd2.1 : _))
          | obj o => exact Bool.noConfusion ((hv ▸ hd2.1 : _))
      | null => exact Bool.noConfusion (hdv ▸ hd)
      | bool b => exact Bool.noConfusion (hdv ▸ hd)
      | num q => exact Bool.noConfusion (hdv ▸ hd)
      | str s => exact Bool.noConfusion (hdv ▸ hd)
      | arr xs => exact Bool.noConfusion (hdv ▸ hd)
  | null => exact Bool.noConfusion h1
  | bool b => exact Bool.noConfusion h1
  | num q => exact Bool.noConfusion h1
  | str s => exact Bool.noConfusion h1
  | arr xs => exact Bool.noConfusion h1

theorem parseSceneGo_err (umap : List (JValue × JValue)) :
    ∀ (gs : List JValue) (idx : ℕ),
      gs.all geomShaped = true → gs.any geomMalformed = true →
      ∃ msg, parseSceneGo umap idx gs = .error (.meshParse msg) := by
  intro gs
  induction gs with
  | nil => intro idx _ hany; simp at hany
  | cons g gs ih =>
      intro idx hall hany
      simp only [List.all_cons, Bool.and_eq_true] at hall
      simp only [List.any_cons, Bool.or_eq_true] at hany
      cases hm : geomMalformed g with
      | true =>
          obtain ⟨msg, he⟩ := parseGeometry_err umap idx g hall.1 hm
          refine ⟨msg, ?_⟩
          simp only [parseSceneGo]
          rw [he]
      | false =>
          have hany2 : gs.any geomMalformed = true := by
            cases hany with
            | inl h => rw [hm] at h; exact Bool.noConfusion h
            | inr h => exact h
          obtain ⟨m, hok⟩ := parseGeometry_ok umap idx g hall.1 hm
          obtain ⟨msg, he⟩ := ih (idx + 1) hall.2 hany2
          refine ⟨msg, ?_⟩
          simp only [parseSceneGo]
          rw [hok, he]

/-- A shape-A payload with one geometry whose flat vertex array has
length 5 (not a multiple of 3). -/
def data5 : Obj :=
  [("geometries",
    .arr [.obj [("data",
      .obj [("vertices",
        .arr [.num 0, .num 0, .num 0, .num 0, .num 0])])]])]

/-- C5: on a well-shaped mesh-export payload without a
`StructuralFrame` key, whenever some geometry has a vertex array whose
length is not a multiple of 3, a faces array whose length is not a
multiple of 4, or a face quadruple with a non-zero flag, `parse_scene`
raises the distinguished `MeshParseError` (so no partially constructed
scene is returned), and `load_scene` dispatches to exactly that
parse. -/
theorem claim_C5 (data : Obj)
    (h1 : sceneShaped data = true)
    (h2 : hasKey data "StructuralFrame" = false)
    (h3 : (geometriesOf data).any geomMalformed = true) :
    (∃ msg, parse_scene data = .error (.meshParse msg)) ∧
      load_scene (.obj data) = parse_scene data := by
  constructor
  · unfold sceneShaped at h1
    rw [Bool.and_eq_true] at h1
    obtain ⟨hg, ho⟩ := h1
    cases hgv : (if hasKey data "geometries" then pyGet data "geometries" else .arr []) with
    | arr gs =>
        rw [hgv] at hg
        have hgall : gs.all geomShaped = true := hg
        have hgeoms : geometriesOf data = gs := by simp [geometriesOf, hgv]
        rw [hgeoms] at h3
        cases hov : (if hasKey data "object" then pyGet data "object" else .obj []) with
        | obj okvs =>
            rw [hov] at ho
            have ho2 :
                (match (if hasKey okvs "children" then pyGet okvs "children" else .arr []) with
                 | .arr cs => cs.all childShaped
                 | _ => false) = true := ho
            cases hcv : (if hasKey okvs "children" then pyGet okvs "children" else .arr []) with
            | arr cs =>
                rw [hcv] at ho2
                have hcall : cs.all childShaped = true := ho2
                obtain ⟨umap, hum⟩ := uuidLoop_ok cs [] hcall
                obtain ⟨msg, herr⟩ := parseSceneGo_err umap gs 0 hgall h3
                have hch : childrenItems data = .ok cs := by
                  unfold childrenItems
                  rw [hov]
                  show iterItems (if hasKey okvs "children" then
                      pyGet okvs "children" else .arr []) = .ok cs
                  rw [hcv]
                  rfl
                refine ⟨msg, ?_⟩
                calc parse_scene data
                    = (match buildUuidMap cs with
                       | .error e => .error e
                       | .ok umap2 =>
                           match iterItems (if hasKey data "geometries" then
                               pyGet data "geometries" else .arr []) with
                           | .error e => .error e
                           | .ok gs2 =>
                               match parseSceneGo umap2 0 gs2 with
                               | .error e => .error e
                               | .ok meshes => .ok { meshes := meshes }) := by
                        unfold parse_scene
                        rw [hch]
                  _ = (match iterItems (if hasKey data "geometries" then
                           pyGet data "geometries" else .arr []) with
                       | .error e => .error e
                       | .ok gs2 =>
                           match parseSceneGo umap 0 gs2 with
                           | .error e => .error e
                           | .ok meshes => .ok { meshes := meshes }) := by
                        rw [show buildUuidMap cs = .ok umap from hum]
                  _ = (match parseSceneGo umap 0 gs with
                       | .error e => .error e
                       | .ok meshes => .ok ({ meshes := meshes } : MeshScene)) := by
                        rw [hgv]
                        rfl
                  _ = .error (.meshParse msg) := by rw [herr]
            | null => exact Bool.noConfusion (hcv ▸ ho2)
            | bool b => exact Bool.noConfusion (hcv ▸ ho2)
            | num q => exact Bool.noConfusion (hcv ▸ ho2)
            | str s => exact Bool.noConfusion (hcv ▸ ho2)
            | obj o => exact Bool.noConfusion (hcv ▸ ho2)
        | null => exact Bool.noConfusion (hov ▸ ho)
        | bool b => exact Bool.noConfusion (hov ▸ ho)
        | num q => exact Bool.noConfusion (hov ▸ ho)
        | str s => exact Bool.noConfusion (hov ▸ ho)
        | arr xs => exact Bool.noConfusion (hov ▸ ho)
    | null => exact Bool.noConfusion (hgv ▸ hg)
    | bool b => exact Bool.noConfusion (hgv ▸ hg)
    | num q => exact Bool.noConfusion (hgv ▸ hg)
    | str s => exact Bool.noConfusion (hgv ▸ hg)
    | obj o => exact Bool.noConfusion (hgv ▸ hg)
  · simp [load_scene, h2]

/-- Witness for C5: on `data5` the hypotheses hold by evaluation, and
the claim yields the parse error and the dispatch equality. -/
theorem claim_C5_witness :
    (sceneShaped data5 = true ∧ hasKey data5 "StructuralFrame" = false ∧
      (geometriesOf data5).any geomMalformed = true) ∧
    ((∃ msg, parse_scene data5 = .error (.meshParse msg)) ∧
      load_scene (.obj data5) = parse_scene data5) :=
  ⟨⟨rfl, rfl, rfl⟩, claim_C5 data5 rfl rfl rfl⟩
